import Mathlib

/-!
Verification of the analysis-orchestration pipeline of
`src/services/enhanced_analysis_engine.py` (class `EnhancedAnalysisEngine`).

The Python code manipulates JSON-like dictionaries and calls three external
collaborators (an AI manager, a search manager and a content extractor).  We
embed the JSON data as an inductive `JVal` with Python `dict` semantics
(duplicate keys in a literal: the later value wins; item assignment on a
non-dict raises `TypeError`; `len` of a number/bool/null raises `TypeError`),
the collaborators as an explicit `Env` record whose fallible operations return
`Except String`, and each method of the engine as a Lean function translated
line by line from the source.  `time.time()` / `datetime.now()` readings are
fields of `Env` since the code consumes them as opaque values.
-/

set_option maxHeartbeats 1000000

/-- The three non-finite floats Python's `json.loads` produces for the
`NaN`, `Infinity` and `-Infinity` constants its default decoder accepts. -/
inductive NonFinite where
  | nan
  | inf
  | neginf
deriving DecidableEq, Inhabited

/-- A JSON value.  Finite numbers are modelled exactly as rationals (every
decimal literal is a rational, and the engine itself only ever produces
integral scores, so no float rounding is observable); the decoder's
`NaN`/`Infinity`/`-Infinity` constants become `jnonfinite` values, which are
truthy, have no `len`, and accept no item assignment — exactly the three
operations the engine can apply to them. -/
inductive JVal where
  | jnull
  | jbool (b : Bool)
  | jnum (q : Rat)
  | jnonfinite (v : NonFinite)
  | jstr (s : String)
  | jarr (xs : List JVal)
  | jobj (fields : List (String × JVal))
deriving Inhabited

/-- Python truthiness of a JSON value (`if x:`): `None`/`False`/`0`/`""` and
empty containers are falsy. -/
def truthy : JVal → Bool
  | .jnull => false
  | .jbool b => b
  | .jnum q => !(q == 0)
  | .jnonfinite _ => true
  | .jstr s => !(s == "")
  | .jarr xs => !xs.isEmpty
  | .jobj fs => !fs.isEmpty

/-- Python `len(x)`: defined for strings, lists and dicts, a `TypeError` for
numbers, booleans and `None`. -/
def pyLen : JVal → Except String Nat
  | .jstr s => .ok s.length
  | .jarr xs => .ok xs.length
  | .jobj fs => .ok ((fs.map Prod.fst).dedup.length)
  | _ => .error "TypeError: object has no len()"

/-- Association-list lookup (first binding; objects built by `mkObj` have
unique keys, mirroring Python dicts). -/
def jlookup (k : String) : List (String × JVal) → Option JVal
  | [] => none
  | p :: fs => if p.1 == k then some p.2 else jlookup k fs

/-- Dict lookup `d.get(k)` / `d[k]` on an object.  `none` on a non-object
or a missing key. -/
def jget : JVal → String → Option JVal
  | .jobj fs, k => jlookup k fs
  | _, _ => none

/-- Python `k in d` membership test (only objects contain keys). -/
def jmem : JVal → String → Bool
  | .jobj fs, k => fs.any (fun p => p.1 == k)
  | _, _ => false

/-- Dict insertion `d[k] = v` on an association list: replaces the value at an
existing key in place, otherwise appends — exactly Python dict update order. -/
def objInsert (fs : List (String × JVal)) (k : String) (v : JVal) :
    List (String × JVal) :=
  if fs.any (fun p => p.1 == k) then
    fs.map (fun p => if p.1 == k then (k, v) else p)
  else fs ++ [(k, v)]

/-- A Python dict literal: entries inserted left to right, a duplicate key
keeps its first position but the *later* value (CPython semantics). -/
def mkObj (l : List (String × JVal)) : JVal :=
  .jobj (l.foldl (fun fs p => objInsert fs p.1 p.2) [])

/-- Python item assignment `d[k] = v`: a `TypeError` on a non-dict. -/
def jset : JVal → String → JVal → Except String JVal
  | .jobj fs, k, v => .ok (.jobj (objInsert fs k v))
  | _, _, _ => .error "TypeError: item assignment on non-dict"

/-- Python `d.get(k, default)`: an `AttributeError` on a non-dict. -/
def pyGet (v : JVal) (k : String) (dflt : JVal) : Except String JVal :=
  match v with
  | .jobj fs => .ok ((jlookup k fs).getD dflt)
  | _ => .error "AttributeError: get on non-dict"

/-- Python list concatenation `xs + ys` where `xs` came from a dict: a
`TypeError` unless `xs` is actually a list. -/
def pyListAdd (v : JVal) (ys : List JVal) : Except String JVal :=
  match v with
  | .jarr xs => .ok (.jarr (xs ++ ys))
  | _ => .error "TypeError: can only concatenate list"

/-- Python slicing prefix `s[:n]` on a string. -/
def pyTake (s : String) (n : Nat) : String := ⟨s.data.take n⟩

/-- Python slicing `s[a:b]` (non-negative indices, clamped, empty if `b ≤ a`). -/
def pySlice (s : String) (a b : Nat) : String := ⟨(s.data.drop a).take (b - a)⟩

/-- The characters Python's `str.strip()` removes: the full Unicode
whitespace set of `Py_UNICODE_ISSPACE` (ASCII 0x09–0x0D, 0x1C–0x20, NEL,
NBSP, and the Unicode space/line/paragraph separators). -/
def pyIsSpace (c : Char) : Bool :=
  let n := c.toNat
  (9 ≤ n && n ≤ 13) || (28 ≤ n && n ≤ 32) || n == 0x85 || n == 0xA0 ||
  n == 0x1680 || (0x2000 ≤ n && n ≤ 0x200A) || n == 0x2028 || n == 0x2029 ||
  n == 0x202F || n == 0x205F || n == 0x3000

/-- Python `str.strip()`. -/
def pyStrip (s : String) : String :=
  ⟨(s.data.dropWhile pyIsSpace).reverse.dropWhile pyIsSpace |>.reverse⟩

/-- First index at which `pat` occurs in `s` (Python `str.find`, as an
`Option` since every use in the source is guarded by an `in` test). -/
def pyFind (s pat : String) : Option Nat :=
  (List.range (s.data.length + 1)).find? (fun i => pat.data.isPrefixOf (s.data.drop i))

/-- Last index at which `pat` occurs in `s` (Python `str.rfind`). -/
def pyRFind (s pat : String) : Option Nat :=
  ((List.range (s.data.length + 1)).filter
    (fun i => pat.data.isPrefixOf (s.data.drop i))).getLast?

/-- Python `pat in s` substring test. -/
def pyContains (s pat : String) : Bool := (pyFind s pat).isSome

/-- Python `f"{n:,}"`: decimal digits grouped in threes by commas. -/
def commaChunk (rds : List Char) : List Char :=
  match rds with
  | a :: b :: c :: d :: rest => a :: b :: c :: ',' :: commaChunk (d :: rest)
  | l => l

/-- Python `f"{n:,}"` thousands-separator rendering of a natural number. -/
def formatWithCommas (n : Nat) : String :=
  ⟨(commaChunk (toString n).data.reverse).reverse⟩

/-! ### A model of Python's `json.loads` at its default settings: the RFC
8259 grammar extended with the `NaN`/`Infinity`/`-Infinity` constants,
strict strings (a raw control character below 0x20 is rejected), surrogate
`\uXXXX` pairs combined, duplicate object keys resolved later-wins, and the
whole input consumed. -/

def jsonWs (c : Char) : Bool := [' ', '\t', '\n', '\r'].contains c

def skipWs (cs : List Char) : List Char := cs.dropWhile jsonWs

def jsonDigit (c : Char) : Bool := 48 ≤ c.toNat && c.toNat ≤ 57

def takeDigits (cs : List Char) : List Char × List Char :=
  (cs.takeWhile jsonDigit, cs.dropWhile jsonDigit)

def digitsToNat (ds : List Char) : Nat :=
  ds.foldl (fun a c => 10 * a + (c.toNat - 48)) 0

/-- Ten to the power `n` by plain recursion (kernel-reducible). -/
def npow10 : Nat → Nat
  | 0 => 1
  | n + 1 => 10 * npow10 n

/-- The value of one hexadecimal digit, by character code. -/
def hexVal (c : Char) : Option Nat :=
  let n := c.toNat
  if 48 ≤ n && n ≤ 57 then some (n - 48)
  else if 97 ≤ n && n ≤ 102 then some (n - 87)
  else if 65 ≤ n && n ≤ 70 then some (n - 55)
  else none

/-- Parse the body of a JSON string after the opening quote, with Python's
strict decoder semantics: a raw control character below 0x20 is rejected
("Invalid control character"), and a high-surrogate `\uXXXX` escape followed
immediately by a low-surrogate escape combines into the single code point
Python's decoder builds.  A *lone* surrogate escape, which Python keeps as a
lone surrogate character in the resulting `str`, has no representative in a
Lean `String` (Lean `Char` excludes surrogates) and is modelled by U+FFFD;
no input the engine feeds onward distinguishes the two.  `fuel` bounds the
recursion (callers pass the input length, which always suffices since every
step consumes at least one character). -/
def parseStringBody (fuel : Nat) (acc : List Char) (cs : List Char) :
    Except String (String × List Char) :=
  match fuel with
  | 0 => .error "Unterminated string"
  | fuel + 1 =>
    match cs with
    | [] => .error "Unterminated string"
    | c :: rest =>
      if c == '"' then .ok (⟨acc.reverse⟩, rest)
      else if c == '\\' then
        match rest with
        | [] => .error "Unterminated string"
        | e :: rest2 =>
          if e == '"' then parseStringBody fuel ('"' :: acc) rest2
          else if e == '\\' then parseStringBody fuel ('\\' :: acc) rest2
          else if e == '/' then parseStringBody fuel ('/' :: acc) rest2
          else if e == 'b' then parseStringBody fuel ('\x08' :: acc) rest2
          else if e == 'f' then parseStringBody fuel ('\x0c' :: acc) rest2
          else if e == 'n' then parseStringBody fuel ('\n' :: acc) rest2
          else if e == 'r' then parseStringBody fuel ('\r' :: acc) rest2
          else if e == 't' then parseStringBody fuel ('\t' :: acc) rest2
          else if e == 'u' then
            match rest2 with
            | h1 :: h2 :: h3 :: h4 :: rest3 =>
              match hexVal h1, hexVal h2, hexVal h3, hexVal h4 with
              | some a, some b, some c3, some d =>
                let n := ((a * 16 + b) * 16 + c3) * 16 + d
                if 0xD800 ≤ n && n ≤ 0xDBFF then
                  match rest3 with
                  | '\\' :: 'u' :: h5 :: h6 :: h7 :: h8 :: rest4 =>
                    match hexVal h5, hexVal h6, hexVal h7, hexVal h8 with
                    | some a2, some b2, some c4, some d2 =>
                      let n2 := ((a2 * 16 + b2) * 16 + c4) * 16 + d2
                      if 0xDC00 ≤ n2 && n2 ≤ 0xDFFF then
                        let m := 0x10000 + (n - 0xD800) * 0x400 + (n2 - 0xDC00)
                        let ch :=
                          if h : m.isValidChar then Char.ofNatAux m h else '�'
                        parseStringBody fuel (ch :: acc) rest4
                      else
                        parseStringBody fuel ('�' :: acc) rest3
                    | _, _, _, _ => .error "Invalid \\u escape"
                  | '\\' :: 'u' :: _ => .error "Invalid \\u escape"
                  | _ => parseStringBody fuel ('�' :: acc) rest3
                else
                  let ch := if h : n.isValidChar then Char.ofNatAux n h else '�'
                  parseStringBody fuel (ch :: acc) rest3
              | _, _, _, _ => .error "Invalid \\u escape"
            | _ => .error "Invalid \\u escape"
          else .error "Invalid escape"
      else if c.toNat < 32 then .error "Invalid control character"
      else parseStringBody fuel (c :: acc) rest

/-- The optional fraction part `.digits` of a JSON number. -/
def fracPart : List Char → Except String (List Char × List Char)
  | '.' :: rest =>
    let (ds, r) := takeDigits rest
    if ds.isEmpty then .error "Expecting digit after decimal point" else .ok (ds, r)
  | cs => .ok ([], cs)

/-- The optional exponent part `(e|E)(+|-)?digits` of a JSON number. -/
def expPart : List Char → Except String (Int × List Char)
  | c :: rest =>
    if c == 'e' || c == 'E' then
      let (sg, rest2) :=
        match rest with
        | '+' :: r => ((1 : Int), r)
        | '-' :: r => ((-1 : Int), r)
        | r => ((1 : Int), r)
      let (ds, r) := takeDigits rest2
      if ds.isEmpty then .error "Expecting digit in exponent"
      else .ok (sg * (digitsToNat ds : Int), r)
    else .ok (0, c :: rest)
  | [] => .ok (0, [])

/-- Parse a JSON number (strict grammar: `-? (0|[1-9][0-9]*) frac? exp?`)
into an exact rational. -/
def parseNumber (cs : List Char) : Except String (Rat × List Char) :=
  let (sign, cs1) :=
    match cs with
    | c :: rest => if c == '-' then ((-1 : Int), rest) else ((1 : Int), cs)
    | [] => ((1 : Int), cs)
  match cs1 with
  | [] => .error "Expecting value"
  | c :: _ =>
    if !(jsonDigit c) then .error "Expecting value"
    else
      let (intDs, cs2) :=
        if c == '0' then ([c], cs1.drop 1) else takeDigits cs1
      match fracPart cs2 with
      | .error e => .error e
      | .ok (fracDs, cs3) =>
        match expPart cs3 with
        | .error e => .error e
        | .ok (ex, cs4) =>
          let mant : Int := sign * ((digitsToNat intDs) * npow10 fracDs.length + digitsToNat fracDs)
          let scale : Int := ex - fracDs.length
          let q : Rat :=
            if scale ≥ 0 then mkRat (mant * (npow10 scale.toNat : Int)) 1
            else mkRat mant (npow10 (-scale).toNat)
          .ok (q, cs4)

mutual

/-- Parse one JSON value; `fuel` bounds the recursion depth (nesting depth is
at most the input length, so callers pass `length + 1`). -/
def parseVal (fuel : Nat) (cs : List Char) : Except String (JVal × List Char) :=
  match fuel with
  | 0 => .error "Too deeply nested"
  | fuel + 1 =>
    let cs := skipWs cs
    match cs with
    | [] => .error "Expecting value"
    | c :: rest =>
      if c == 'n' then
        match rest with
        | 'u' :: 'l' :: 'l' :: r => .ok (.jnull, r)
        | _ => .error "Expecting value"
      else if c == 't' then
        match rest with
        | 'r' :: 'u' :: 'e' :: r => .ok (.jbool true, r)
        | _ => .error "Expecting value"
      else if c == 'f' then
        match rest with
        | 'a' :: 'l' :: 's' :: 'e' :: r => .ok (.jbool false, r)
        | _ => .error "Expecting value"
      else if c == '"' then
        match parseStringBody rest.length ([]) rest with
        | .ok (s, r) => .ok (.jstr s, r)
        | .error e => .error e
      else if c == '[' then
        match skipWs rest with
        | ']' :: r => .ok (.jarr [], r)
        | r => parseArrItems fuel [] r
      else if c == Char.ofNat 123 then
        match skipWs rest with
        | d :: r => if d == Char.ofNat 125 then .ok (.jobj [], r) else parseObjItems fuel [] (d :: r)
        | [] => .error "Expecting property name"
      else if c == '-' then
        match rest with
        | 'I' :: 'n' :: 'f' :: 'i' :: 'n' :: 'i' :: 't' :: 'y' :: r =>
          .ok (.jnonfinite .neginf, r)
        | _ =>
          match parseNumber cs with
          | .ok (q, r) => .ok (.jnum q, r)
          | .error e => .error e
      else if jsonDigit c then
        match parseNumber cs with
        | .ok (q, r) => .ok (.jnum q, r)
        | .error e => .error e
      else if c == 'N' then
        match rest with
        | 'a' :: 'N' :: r => .ok (.jnonfinite .nan, r)
        | _ => .error "Expecting value"
      else if c == 'I' then
        match rest with
        | 'n' :: 'f' :: 'i' :: 'n' :: 'i' :: 't' :: 'y' :: r =>
          .ok (.jnonfinite .inf, r)
        | _ => .error "Expecting value"
      else .error "Expecting value"

/-- Parse the items of a non-empty JSON array (after `[`). -/
def parseArrItems (fuel : Nat) (acc : List JVal) (cs : List Char) :
    Except String (JVal × List Char) :=
  match fuel with
  | 0 => .error "Too deeply nested"
  | fuel + 1 =>
    match parseVal fuel cs with
    | .error e => .error e
    | .ok (v, r) =>
      match skipWs r with
      | ',' :: r2 => parseArrItems fuel (v :: acc) r2
      | ']' :: r2 => .ok (.jarr (v :: acc).reverse, r2)
      | _ => .error "Expecting comma or close bracket"

/-- Parse the members of a non-empty JSON object (after `\x7b`); duplicate
keys resolve later-wins, matching Python's `dict`-building decoder. -/
def parseObjItems (fuel : Nat) (acc : List (String × JVal)) (cs : List Char) :
    Except String (JVal × List Char) :=
  match fuel with
  | 0 => .error "Too deeply nested"
  | fuel + 1 =>
    match skipWs cs with
    | '"' :: rest =>
      match parseStringBody rest.length [] rest with
      | .error e => .error e
      | .ok (k, r) =>
        match skipWs r with
        | ':' :: r2 =>
          match parseVal fuel r2 with
          | .error e => .error e
          | .ok (v, r3) =>
            match skipWs r3 with
            | ',' :: r4 => parseObjItems fuel ((k, v) :: acc) r4
            | d :: r4 =>
              if d == Char.ofNat 125 then
                .ok (mkObj (acc.reverse ++ [(k, v)]), r4)
              else .error "Expecting comma or close brace"
            | [] => .error "Expecting comma or close brace"
        | _ => .error "Expecting colon"
    | _ => .error "Expecting property name"

end

/-- The model of `json.loads` at its default settings: parse one value —
including the non-standard `NaN`, `Infinity` and `-Infinity` constants the
default decoder accepts, which become `jnonfinite` values — then require
only whitespace to remain ("Extra data" otherwise). -/
def json_loads (s : String) : Except String JVal :=
  match parseVal (s.data.length + 1) s.data with
  | .error e => .error e
  | .ok (v, rest) =>
    if (skipWs rest).isEmpty then .ok v else .error "Extra data"

/-! ### Data model of the engine (`EnhancedAnalysisEngine`) -/

/-- One search hit as delivered by the search collaborator
(`{url, title, snippet, source}`). -/
structure SearchResult where
  url : String
  title : String
  snippet : String
  source : String
deriving DecidableEq

/-- One extracted page (`{url, title, content, source, context_query?}`). -/
structure ExtractedPage where
  url : String
  title : String
  content : String
  source : String
  context_query : Option String
deriving DecidableEq

/-- One source descriptor (`{url, title, source}`). -/
structure SourceDesc where
  url : String
  title : String
  source : String
deriving DecidableEq

/-- The `research_data` dictionary built by `_collect_comprehensive_data`. -/
structure ResearchData where
  search_results : List SearchResult
  extracted_content : List ExtractedPage
  market_intelligence : List (String × JVal)
  sources : List SourceDesc
  total_content_length : Nat

/-- The business brief (`data` dict).  Every consumed key is read with
`.get`, so each field is optional; a present-but-empty string is falsy for
the `if data.get(...)` guards, exactly as in Python. -/
structure AnalysisRequest where
  segmento : Option String
  produto : Option String
  publico : Option String
  preco : Option String
  objetivo_receita : Option String
  orcamento_marketing : Option String
  prazo_lancamento : Option String
  concorrentes : Option String
  dados_adicionais : Option String
  query : Option String

/-- The collaborators and ambient readings the engine consumes.  Fallible
collaborator calls return `Except String` (a raised exception carries its
message); `get_provider_status` has no failure mode in its contract, so a
status snapshot is plain data; clock readings are opaque input values. -/
structure Env where
  aiManagerEnabled : Bool
  searchManagerEnabled : Bool
  contentExtractorEnabled : Bool
  multiSearch : String → Nat → Except String (List SearchResult)
  search : String → Nat → Except String (List SearchResult)
  extractContent : String → Except String String
  generateAnalysis : String → Nat → Except String String
  aiProviderStatus : List (String × Bool)
  searchProviderStatus : List (String × Bool)
  startTime : Nat
  endTime : Nat
  nowIsoUtc : String
  nowIsoLocal : String
  nowFmt : String

/-- Python truthiness of an optional string field (`data.get('x')`). -/
def optTruthy : Option String → Bool
  | some s => !(s == "")
  | none => false

/-- Python truthiness of a string. -/
def truthyStr (s : String) : Bool := !(s == "")

/-- Python `data.get(k, 'Não informado')`. -/
def orNI (o : Option String) : String := o.getD "Não informado"

/-! ### `_collect_comprehensive_data` (lines 79–152) -/

/-- The fresh `research_data` dict (lines 86–92). -/
def emptyResearchData : ResearchData := ⟨[], [], [], [], 0⟩

/-- The per-result extraction loop shared by both phases (lines 103–112 and
136–146): an `extract_content` call that returns empty text drops just that
item, but a *raised* exception stops the loop and reports `true`, because the
enclosing `try` is around the whole phase. -/
def extractLoop (env : Env) (results : List SearchResult) (ctxQ : Option String)
    (st : ResearchData) : ResearchData × Bool :=
  match results with
  | [] => (st, false)
  | r :: rest =>
    match env.extractContent r.url with
    | .error _ => (st, true)
    | .ok content =>
      let st :=
        if truthyStr content then
          { st with
            extracted_content :=
              st.extracted_content ++ [⟨r.url, r.title, content, r.source, ctxQ⟩],
            total_content_length := st.total_content_length + content.length }
        else st
      extractLoop env rest ctxQ st

/-- Phase 1: multi-provider search on the free-text query (lines 94–118).
The `sources` list is assigned only after the whole extraction loop, so an
extraction raise leaves it empty. -/
def collectPhase1 (env : Env) (data : AnalysisRequest) (st : ResearchData) :
    ResearchData :=
  if env.searchManagerEnabled && optTruthy data.query then
    match env.multiSearch (data.query.getD "") 8 with
    | .error _ => st
    | .ok search_results =>
      let st1 := { st with search_results := search_results }
      match extractLoop env (search_results.take 15) none st1 with
      | (st2, true) => st2
      | (st2, false) =>
        { st2 with sources := search_results.map (fun r => ⟨r.url, r.title, r.source⟩) }
  else st

/-- The three fixed contextual query templates (lines 125–129). -/
def contextualQueries (segmento : String) : List String :=
  ["mercado " ++ segmento ++ " Brasil 2024 tendências",
   "análise competitiva " ++ segmento ++ " oportunidades",
   "dados estatísticos " ++ segmento ++ " crescimento"]

/-- The per-query loop of phase 2 (lines 131–146): a raised search or
extraction exception aborts the *remaining* queries of this phase (the `try`
wraps the whole loop), keeping whatever was accumulated before. -/
def queryLoop (env : Env) (queries : List String) (st : ResearchData) :
    ResearchData × Bool :=
  match queries with
  | [] => (st, false)
  | q :: rest =>
    match env.search q 5 with
    | .error _ => (st, true)
    | .ok context_results =>
      let st := { st with search_results := st.search_results ++ context_results }
      match extractLoop env (context_results.take 3) (some q) st with
      | (st2, true) => (st2, true)
      | (st2, false) => queryLoop env rest st2

/-- Phase 2: contextual searches from the segment (lines 120–150). -/
def collectPhase2 (env : Env) (data : AnalysisRequest) (st : ResearchData) :
    ResearchData :=
  if env.searchManagerEnabled && optTruthy data.segmento then
    (queryLoop env (contextualQueries (data.segmento.getD "")) st).1
  else st

/-- Model of `_collect_comprehensive_data` (lines 79–152): both phases catch their own
exceptions, so collection itself never raises. -/
def _collect_comprehensive_data (env : Env) (data : AnalysisRequest) : ResearchData :=
  collectPhase2 env data (collectPhase1 env data emptyResearchData)

/-! ### Research context rendering (`_perform_...`, lines 165–182) -/

/-- One `--- FONTE i: ... ---` block (lines 172–175). -/
def fonteBlock (p : Nat × ExtractedPage) : String :=
  "--- FONTE " ++ toString (p.1 + 1) ++ ": " ++ p.2.title ++ " ---\n" ++
  "URL: " ++ p.2.url ++ "\n" ++
  "Conteúdo: " ++ pyTake p.2.content 1500 ++ "\n\n"

/-- The `search_context` text assembled before prompting (lines 166–182). -/
def buildSearchContext (research : ResearchData) : String :=
  let part1 :=
    if !research.extracted_content.isEmpty then
      "PESQUISA PROFUNDA REALIZADA:\n\n" ++
        String.join (((research.extracted_content.take 10).enum).map fonteBlock)
    else ""
  let part2 :=
    if !research.search_results.isEmpty then
      "RESULTADOS DE BUSCA (" ++ toString research.search_results.length ++ " fontes):\n" ++
        String.join ((research.search_results.take 15).map
          (fun r => "• " ++ r.title ++ " - " ++ pyTake r.snippet 200 ++ "\n")) ++ "\n"
    else ""
  part1 ++ part2

/-! ### `_build_comprehensive_analysis_prompt` (lines 206–410) -/

/-- Everything of the prompt f-string before the interpolated
`datetime.now().strftime('%d/%m/%Y %H:%M')` reading (the `atualizacao`
field), rendered exactly as the source template (literal braces written as
hex escapes). -/
def promptBeforeNow (data : AnalysisRequest) (search_context : String) : String :=
  "\n# ANÁLISE ULTRA-DETALHADA DE MERCADO - ARQV30 ENHANCED v2.0\n\nVocê é o DIRETOR SUPREMO DE ANÁLISE DE MERCADO, um especialista de elite com 30+ anos de experiência.\n\n## DADOS DO PROJETO:\n- **Segmento**: " ++
  (orNI data.segmento) ++
  "\n- **Produto/Serviço**: " ++
  (orNI data.produto) ++
  "\n- **Público-Alvo**: " ++
  (orNI data.publico) ++
  "\n- **Preço**: R$ " ++
  (orNI data.preco) ++
  "\n- **Objetivo de Receita**: R$ " ++
  (orNI data.objetivo_receita) ++
  "\n- **Orçamento Marketing**: R$ " ++
  (orNI data.orcamento_marketing) ++
  "\n- **Prazo**: " ++
  (orNI data.prazo_lancamento) ++
  "\n- **Concorrentes**: " ++
  (orNI data.concorrentes) ++
  "\n- **Dados Adicionais**: " ++
  (orNI data.dados_adicionais) ++
  "\n\n## CONTEXTO DE PESQUISA REAL:\n" ++
  (if truthyStr search_context then pyTake search_context 12000 else "Nenhuma pesquisa realizada") ++
  "\n\n## INSTRUÇÕES CRÍTICAS:\n\nGere uma análise ULTRA-COMPLETA em formato JSON estruturado. Use APENAS dados REAIS baseados na pesquisa fornecida.\n\n```json\n\x7b\n  \"avatar_ultra_detalhado\": \x7b\n    \"nome_ficticio\": \"Nome representativo baseado em dados reais\",\n    \"perfil_demografico\": \x7b\n      \"idade\": \"Faixa etária específica com dados reais\",\n      \"genero\": \"Distribuição real por gênero\",\n      \"renda\": \"Faixa de renda real baseada em pesquisas\",\n      \"escolaridade\": \"Nível educacional real\",\n      \"localizacao\": \"Regiões geográficas reais\",\n      \"estado_civil\": \"Status relacionamento real\",\n      \"profissao\": \"Ocupações reais mais comuns\"\n    \x7d,\n    \"perfil_psicografico\": \x7b\n      \"personalidade\": \"Traços reais dominantes\",\n      \"valores\": \"Valores reais e crenças principais\",\n      \"interesses\": \"Hobbies e interesses reais específicos\",\n      \"estilo_vida\": \"Como realmente vive baseado em pesquisas\",\n      \"comportamento_compra\": \"Processo real de decisão\",\n      \"influenciadores\": \"Quem realmente influencia decisões\",\n      \"medos_profundos\": \"Medos reais documentados\",\n      \"aspiracoes_secretas\": \"Aspirações reais baseadas em estudos\"\n    \x7d,\n    \"dores_viscerais\": [\n      \"Lista de 10-15 dores específicas e REAIS baseadas em pesquisas\"\n    ],\n    \"desejos_secretos\": [\n      \"Lista de 10-15 desejos profundos REAIS baseados em estudos\"\n    ],\n    \"objecoes_reais\": [\n      \"Lista de 8-12 objeções REAIS específicas baseadas em dados\"\n    ],\n    \"jornada_emocional\": \x7b\n      \"consciencia\": \"Como realmente toma consciência\",\n      \"consideracao\": \"Processo real de avaliação\",\n      \"decisao\": \"Fatores reais decisivos\",\n      \"pos_compra\": \"Experiência real pós-compra\"\n    \x7d,\n    \"linguagem_interna\": \x7b\n      \"frases_dor\": [\"Frases reais que usa\"],\n      \"frases_desejo\": [\"Frases reais de desejo\"],\n      \"metaforas_comuns\": [\"Metáforas reais usadas\"],\n      \"vocabulario_especifico\": [\"Palavras específicas do nicho\"],\n      \"tom_comunicacao\": \"Tom real de comunicação\"\n    \x7d\n  \x7d,\n  \n  \"escopo_posicionamento\": \x7b\n    \"posicionamento_mercado\": \"Posicionamento único REAL baseado em análise\",\n    \"proposta_valor_unica\": \"Proposta REAL irresistível\",\n    \"diferenciais_competitivos\": [\n      \"Lista de diferenciais REAIS únicos e defensáveis\"\n    ],\n    \"mensagem_central\": \"Mensagem principal REAL\",\n    \"tom_comunicacao\": \"Tom de voz REAL ideal\",\n    \"nicho_especifico\": \"Nicho mais específico REAL\",\n    \"estrategia_oceano_azul\": \"Como criar mercado REAL sem concorrência\",\n    \"ancoragem_preco\": \"Como ancorar o preço REAL\"\n  \x7d,\n  \n  \"analise_concorrencia_profunda\": [\n    \x7b\n      \"nome\": \"Nome REAL do concorrente principal\",\n      \"analise_swot\": \x7b\n        \"forcas\": [\"Principais forças REAIS específicas\"],\n        \"fraquezas\": [\"Principais fraquezas REAIS exploráveis\"],\n        \"oportunidades\": [\"Oportunidades REAIS que eles não veem\"],\n        \"ameacas\": [\"Ameaças REAIS que representam\"]\n      \x7d,\n      \"estrategia_marketing\": \"Estratégia REAL principal detalhada\",\n      \"posicionamento\": \"Como se posicionam REALMENTE\",\n      \"vulnerabilidades\": [\"Pontos fracos REAIS exploráveis\"],\n      \"share_mercado_estimado\": \"Participação REAL estimada\"\n    \x7d\n  ],\n  \n  \"estrategia_palavras_chave\": \x7b\n    \"palavras_primarias\": [\n      \"10-15 palavras-chave REAIS principais com alto volume\"\n    ],\n    \"palavras_secundarias\": [\n      \"20-30 palavras-chave REAIS secundárias\"\n    ],\n    \"palavras_cauda_longa\": [\n      \"25-40 palavras-chave REAIS de cauda longa específicas\"\n    ],\n    \"intencao_busca\": \x7b\n      \"informacional\": [\"Palavras REAIS para conteúdo educativo\"],\n      \"navegacional\": [\"Palavras REAIS para encontrar a marca\"],\n      \"transacional\": [\"Palavras REAIS para conversão direta\"]\n    \x7d,\n    \"estrategia_conteudo\": \"Como usar as palavras-chave REALMENTE\",\n    \"sazonalidade\": \"Variações REAIS sazonais das buscas\",\n    \"oportunidades_seo\": \"Oportunidades REAIS específicas identificadas\"\n  \x7d,\n  \n  \"metricas_performance_detalhadas\": \x7b\n    \"kpis_principais\": [\n      \x7b\n        \"metrica\": \"Nome da métrica REAL\",\n        \"objetivo\": \"Valor objetivo REAL\",\n        \"frequencia\": \"Frequência de medição\",\n        \"responsavel\": \"Quem acompanha\"\n      \x7d\n    ],\n    \"projecoes_financeiras\": \x7b\n      \"cenario_conservador\": \x7b\n        \"receita_mensal\": \"Valor REAL baseado em dados\",\n        \"clientes_mes\": \"Número REAL de clientes\",\n        \"ticket_medio\": \"Ticket médio REAL\",\n        \"margem_lucro\": \"Margem REAL esperada\"\n      \x7d,\n      \"cenario_realista\": \x7b\n        \"receita_mensal\": \"Valor REAL baseado em dados\",\n        \"clientes_mes\": \"Número REAL de clientes\",\n        \"ticket_medio\": \"Ticket médio REAL\",\n        \"margem_lucro\": \"Margem REAL esperada\"\n      \x7d,\n      \"cenario_otimista\": \x7b\n        \"receita_mensal\": \"Valor REAL baseado em dados\",\n        \"clientes_mes\": \"Número REAL de clientes\",\n        \"ticket_medio\": \"Ticket médio REAL\",\n        \"margem_lucro\": \"Margem REAL esperada\"\n      \x7d\n    \x7d,\n    \"roi_esperado\": \"ROI REAL baseado em dados do mercado\",\n    \"payback_investimento\": \"Tempo REAL de retorno\",\n    \"lifetime_value\": \"LTV REAL do cliente\"\n  \x7d,\n  \n  \"plano_acao_detalhado\": \x7b\n    \"fase_1_preparacao\": \x7b\n      \"duracao\": \"Tempo REAL necessário\",\n      \"atividades\": [\"Lista de atividades REAIS específicas\"],\n      \"investimento\": \"Investimento REAL necessário\",\n      \"entregas\": [\"Entregas REAIS esperadas\"],\n      \"responsaveis\": [\"Perfis REAIS necessários\"]\n    \x7d,\n    \"fase_2_lancamento\": \x7b\n      \"duracao\": \"Tempo REAL necessário\",\n      \"atividades\": [\"Lista de atividades REAIS específicas\"],\n      \"investimento\": \"Investimento REAL necessário\",\n      \"entregas\": [\"Entregas REAIS esperadas\"],\n      \"responsaveis\": [\"Perfis REAIS necessários\"]\n    \x7d,\n    \"fase_3_crescimento\": \x7b\n      \"duracao\": \"Tempo REAL necessário\",\n      \"atividades\": [\"Lista de atividades REAIS específicas\"],\n      \"investimento\": \"Investimento REAL necessário\",\n      \"entregas\": [\"Entregas REAIS esperadas\"],\n      \"responsaveis\": [\"Perfis REAIS necessários\"]\n    \x7d\n  \x7d,\n  \n  \"insights_exclusivos_ultra\": [\n    \"Lista de 25-30 insights únicos, específicos e ULTRA-VALIOSOS baseados na análise REAL profunda\"\n  ],\n  \n  \"inteligencia_mercado\": \x7b\n    \"tendencias_emergentes\": [\"Tendências REAIS identificadas na pesquisa\"],\n    \"oportunidades_ocultas\": [\"Oportunidades REAIS não exploradas\"],\n    \"ameacas_potenciais\": [\"Ameaças REAIS identificadas\"],\n    \"gaps_mercado\": [\"Lacunas REAIS no mercado\"],\n    \"inovacoes_disruptivas\": [\"Inovações REAIS que podem impactar\"]\n  \x7d,\n  \n  \"dados_pesquisa\": \x7b\n    \"fontes_consultadas\": " ++
  (toString (if truthyStr search_context then (search_context.splitOn "---").length else 0)) ++
  ",\n    \"qualidade_dados\": \"Alta - baseado em pesquisa real\",\n    \"confiabilidade\": \"100% - dados verificados\",\n    \"atualizacao\": \""

/-- The tail of the prompt f-string after the interpolated clock reading. -/
def promptAfterNow : String :=
  "\"\n  \x7d\n\x7d\n```\n\nCRÍTICO: Use APENAS dados REAIS da pesquisa fornecida. NUNCA invente ou simule informações.\n"

/-- Model of `_build_comprehensive_analysis_prompt`: the prompt template filled with
the request fields, the (truncated) search context, and the current clock
reading `env.nowFmt`. -/
def _build_comprehensive_analysis_prompt (env : Env) (data : AnalysisRequest)
    (search_context : String) : String :=
  promptBeforeNow data search_context ++ env.nowFmt ++ promptAfterNow

/-! ### `_process_ai_response` / `_extract_structured_analysis` (lines 412–490) -/

/-- The `metadata_ai` block attached on a successful parse (lines 431–438). -/
def metadataAiBlock (env : Env) : JVal :=
  mkObj [
    ("generated_at", .jstr env.nowIsoLocal),
    ("provider_used", .jstr "ai_manager_fallback"),
    ("version", .jstr "2.0.0"),
    ("analysis_type", .jstr "comprehensive_real"),
    ("data_source", .jstr "real_search_data"),
    ("quality_guarantee", .jstr "premium")]

/-- Model of `_extract_structured_analysis` (lines 447–490): the heuristic fallback
built from templates seeded by the request's segment, with the first 1000
characters of the raw response preserved under `raw_ai_response`. -/
def _extract_structured_analysis (text : String) (original_data : AnalysisRequest) : JVal :=
  let segmento := original_data.segmento.getD "Negócios"
  mkObj [
    ("avatar_ultra_detalhado", mkObj [
      ("nome_ficticio", .jstr ("Profissional " ++ segmento ++ " Brasileiro")),
      ("perfil_demografico", mkObj [
        ("idade", .jstr "30-45 anos - faixa de maior poder aquisitivo"),
        ("genero", .jstr "Distribuição equilibrada com leve predominância masculina"),
        ("renda", .jstr "R$ 8.000 - R$ 35.000 - classe média alta brasileira"),
        ("escolaridade", .jstr "Superior completo - 78% têm graduação"),
        ("localizacao", .jstr "Concentrados em grandes centros urbanos"),
        ("estado_civil", .jstr "68% casados ou união estável"),
        ("profissao", .jstr ("Profissionais de " ++ segmento ++ " e áreas correlatas"))]),
      ("dores_viscerais", .jarr [
        .jstr ("Trabalhar excessivamente em " ++ segmento ++ " sem ver crescimento proporcional"),
        .jstr "Sentir-se sempre correndo atrás da concorrência",
        .jstr "Ver competidores menores crescendo mais rapidamente",
        .jstr "Não conseguir se desconectar do trabalho",
        .jstr "Viver com medo constante de que tudo pode desmoronar"]),
      ("desejos_secretos", .jarr [
        .jstr ("Ser reconhecido como autoridade no mercado de " ++ segmento),
        .jstr "Ter um negócio que funcione sem presença constante",
        .jstr "Ganhar dinheiro de forma passiva",
        .jstr "Ter liberdade total de horários e decisões",
        .jstr "Deixar um legado significativo"])]),
    ("insights_exclusivos_ultra", .jarr [
      .jstr ("O mercado brasileiro de " ++ segmento ++ " está em transformação digital acelerada"),
      .jstr "Existe lacuna entre ferramentas disponíveis e conhecimento para implementá-las",
      .jstr "A maior dor não é falta de informação, mas excesso sem direcionamento",
      .jstr ("Profissionais de " ++ segmento ++ " pagam premium por simplicidade"),
      .jstr "Fator decisivo é combinação de confiança + urgência + prova social"]),
    ("raw_ai_response", .jstr (pyTake text 1000))]

/-- The fence-stripping preamble of `_process_ai_response` (lines 416–425):
strip whitespace, then slice between the first fence marker (preferring a
JSON-tagged fence) and the last triple-backtick. -/
def stripFences (ai_response : String) : String :=
  let clean_text := pyStrip ai_response
  if pyContains clean_text "```json" then
    let s := (pyFind clean_text "```json").getD 0 + 7
    let e := (pyRFind clean_text "```").getD 0
    pyStrip (pySlice clean_text s e)
  else if pyContains clean_text "```" then
    let s := (pyFind clean_text "```").getD 0 + 3
    let e := (pyRFind clean_text "```").getD 0
    pyStrip (pySlice clean_text s e)
  else clean_text

/-- Model of `_process_ai_response` (lines 412–445): strict JSON parsing of the
fence-stripped text, attach `metadata_ai` on success, and fall back to the
heuristic extraction only on a *parse* error — the `except` clause names
`json.JSONDecodeError` alone, so the `TypeError` raised by
`analysis['metadata_ai'] = ...` when the parsed value is not a dict
propagates. -/
def _process_ai_response (env : Env) (ai_response : String)
    (original_data : AnalysisRequest) : Except String JVal :=
  match json_loads (stripFences ai_response) with
  | .ok analysis => jset analysis "metadata_ai" (metadataAiBlock env)
  | .error _ => .ok (_extract_structured_analysis ai_response original_data)

/-! ### `_generate_basic_analysis` (lines 594–635) -/

/-- Model of `_generate_basic_analysis`: the deterministic degraded analysis used when
the AI call fails; a pure function of the request's segment. -/
def _generate_basic_analysis (data : AnalysisRequest) : JVal :=
  mkObj [
    ("avatar_ultra_detalhado", mkObj [
      ("perfil_demografico", mkObj [
        ("idade", .jstr "25-45 anos"),
        ("renda", .jstr "R$ 3.000 - R$ 15.000"),
        ("escolaridade", .jstr "Superior"),
        ("localizacao", .jstr "Centros urbanos")]),
      ("dores_especificas", .jarr [
        .jstr "Falta de conhecimento especializado",
        .jstr "Dificuldade para implementar estratégias",
        .jstr "Resultados inconsistentes",
        .jstr "Falta de direcionamento claro"]),
      ("desejos_profundos", .jarr [
        .jstr "Alcançar liberdade financeira",
        .jstr "Ter mais tempo para família",
        .jstr "Ser reconhecido como especialista",
        .jstr "Fazer diferença no mundo"])]),
    ("escopo", mkObj [
      ("posicionamento_mercado", .jstr "Solução premium para resultados rápidos"),
      ("proposta_valor", .jstr "Transforme seu negócio com estratégias comprovadas"),
      ("diferenciais_competitivos", .jarr [
        .jstr "Metodologia exclusiva",
        .jstr "Suporte personalizado"])]),
    ("estrategia_palavras_chave", mkObj [
      ("palavras_primarias", .jarr [
        .jstr (data.segmento.getD "negócio"),
        .jstr "estratégia",
        .jstr "marketing"]),
      ("palavras_secundarias", .jarr [
        .jstr "crescimento", .jstr "vendas", .jstr "digital", .jstr "online"]),
      ("palavras_cauda_longa", .jarr [
        .jstr ("como crescer no " ++ data.segmento.getD "mercado"),
        .jstr "estratégias de marketing digital"])]),
    ("insights_exclusivos", .jarr [
      .jstr ("O mercado de " ++ data.segmento.getD "negócios" ++ " apresenta oportunidades de crescimento"),
      .jstr "A digitalização é uma tendência irreversível no setor",
      .jstr "Investimento em marketing digital é essencial para competitividade",
      .jstr "Personalização da experiência do cliente é um diferencial competitivo",
      .jstr "⚠️ Análise gerada em modo básico - sistemas de IA indisponíveis"])]

/-! ### `_perform_comprehensive_ai_analysis` (lines 154–204) -/

/-- Model of `_perform_comprehensive_ai_analysis`: raises only when no AI manager is
configured (the `raise` on line 162 sits *outside* the `try`); every failure
inside the `try` — a raising model call, an empty response, or the recovery
`TypeError` — degrades to `_generate_basic_analysis`. -/
def _perform_comprehensive_ai_analysis (env : Env) (data : AnalysisRequest)
    (research : ResearchData) : Except String JVal :=
  if !env.aiManagerEnabled then
    .error "AI Manager não disponível - configure pelo menos uma API de IA"
  else
    let tryBody : Except String JVal :=
      let search_context := buildSearchContext research
      let prompt := _build_comprehensive_analysis_prompt env data search_context
      match env.generateAnalysis prompt 8192 with
      | .error e => .error e
      | .ok ai_response =>
        if truthyStr ai_response then _process_ai_response env ai_response data
        else .error "IA não retornou resposta válida"
    match tryBody with
    | .ok r => .ok r
    | .error _ => .ok (_generate_basic_analysis data)

/-! ### `_generate_real_exclusive_insights` (lines 545–592) -/

/-- A provider-status snapshot rendered as the JSON the status dicts carry
(the contract guarantees at least an `available` flag per provider). -/
def providerStatusToJVal (st : List (String × Bool)) : JVal :=
  mkObj (st.map (fun p => (p.1, mkObj [("available", .jbool p.2)])))

/-- The distinct URL domains among the search results (`url.split('/')[2]`,
an `IndexError` for a single URL is swallowed and that URL skipped). -/
def searchDomains (results : List SearchResult) : List String :=
  (results.filterMap (fun r => (r.url.splitOn "/").get? 2)).dedup

/-- Model of `_generate_real_exclusive_insights`: the derived insight strings, built
in a fixed order and capped at 5 (`insights[:5]`).  The `data` and
`ai_analysis` parameters are accepted but never read, as in the source. -/
def _generate_real_exclusive_insights (env : Env) (data : AnalysisRequest)
    (research : ResearchData) (ai_analysis : JVal) : List String :=
  let insights : List String := []
  let insights := insights ++
    (if !research.search_results.isEmpty then
      ["🔍 Pesquisa Real: Análise baseada em " ++
        toString research.search_results.length ++ " resultados de " ++
        toString ((research.search_results.map (fun r => r.source)).dedup.length) ++
        " provedores diferentes"]
    else [])
  let insights := insights ++
    (if !research.extracted_content.isEmpty then
      ["📄 Conteúdo Real: " ++ toString research.extracted_content.length ++
        " páginas analisadas com " ++ formatWithCommas research.total_content_length ++
        " caracteres de conteúdo real"]
    else [])
  let insights := insights ++
    (if !research.search_results.isEmpty then
      (if (searchDomains research.search_results).length > 5 then
        ["🌐 Diversidade de Fontes: Informações coletadas de " ++
          toString (searchDomains research.search_results).length ++
          " domínios únicos para máxima confiabilidade"]
      else [])
    else [])
  let insights := insights ++
    ["🤖 Sistema Robusto: " ++ toString (env.aiProviderStatus.countP (fun p => p.2)) ++
      " provedores de IA e " ++ toString (env.searchProviderStatus.countP (fun p => p.2)) ++
      " provedores de busca disponíveis com fallback automático"]
  let insights := insights ++
    ["✅ Garantia de Qualidade: 100% dos dados baseados em pesquisa real, sem simulações ou dados fictícios"]
  insights.take 5

/-! ### `_consolidate_comprehensive_analysis` (lines 492–543) -/

/-- A search result rendered back to JSON for `resultados_detalhados`. -/
def searchResultToJVal (r : SearchResult) : JVal :=
  mkObj [("url", .jstr r.url), ("title", .jstr r.title),
         ("snippet", .jstr r.snippet), ("source", .jstr r.source)]

/-- The `sistemas_utilizados` block (lines 535–541). -/
def sistemasUtilizadosBlock (env : Env) (research : ResearchData) : JVal :=
  mkObj [
    ("ai_providers", providerStatusToJVal env.aiProviderStatus),
    ("search_providers", providerStatusToJVal env.searchProviderStatus),
    ("content_extraction", .jbool (!research.extracted_content.isEmpty)),
    ("total_sources", .jnum research.sources.length),
    ("analysis_quality", .jstr "premium_real_data")]

/-- Model of `_consolidate_comprehensive_analysis`: enrich a copy of the AI result
with research counts, the derived exclusive insights (appended to an existing
`insights_exclusivos` list, else to `insights_exclusivos_ultra`), and the
`sistemas_utilizados` snapshot.  Each dict operation keeps Python's failure
mode (`TypeError` on non-dict and non-list operands), which the pipeline's top-level
handler would catch. -/
def _consolidate_comprehensive_analysis (env : Env) (data : AnalysisRequest)
    (research : ResearchData) (ai_analysis : JVal) : Except String JVal :=
  let step1 : Except String JVal :=
    if !research.search_results.isEmpty then
      jset ai_analysis "dados_pesquisa_real" (mkObj [
        ("total_resultados", .jnum research.search_results.length),
        ("fontes_unicas", .jnum ((research.search_results.map (fun r => r.url)).dedup.length)),
        ("provedores_utilizados", .jarr
          (((research.search_results.map (fun r => r.source)).dedup).map .jstr)),
        ("resultados_detalhados", .jarr (research.search_results.map searchResultToJVal))])
    else .ok ai_analysis
  match step1 with
  | .error e => .error e
  | .ok c1 =>
    let step2 : Except String JVal :=
      if !research.extracted_content.isEmpty then
        jset c1 "conteudo_extraido_real" (mkObj [
          ("total_paginas", .jnum research.extracted_content.length),
          ("total_caracteres", .jnum research.total_content_length),
          ("paginas_processadas", .jarr (research.extracted_content.map (fun item =>
            mkObj [("url", .jstr item.url), ("titulo", .jstr item.title),
                   ("tamanho_conteudo", .jnum item.content.length),
                   ("fonte", .jstr item.source)])))])
      else .ok c1
    match step2 with
    | .error e => .error e
    | .ok c2 =>
      let exclusive_insights := _generate_real_exclusive_insights env data research ai_analysis
      let step3 : Except String JVal :=
        if !exclusive_insights.isEmpty then
          match pyGet c2 "insights_exclusivos" (.jarr []) with
          | .error e => .error e
          | .ok existing0 =>
            let existingE : Except String JVal :=
              if !(truthy existing0) then pyGet c2 "insights_exclusivos_ultra" (.jarr [])
              else .ok existing0
            match existingE with
            | .error e => .error e
            | .ok existing =>
              match pyListAdd existing (exclusive_insights.map .jstr) with
              | .error e => .error e
              | .ok combined => jset c2 "insights_exclusivos" combined
        else .ok c2
      match step3 with
      | .error e => .error e
      | .ok c3 => jset c3 "sistemas_utilizados" (sistemasUtilizadosBlock env research)

/-! ### `_calculate_quality_score` (lines 637–667) -/

/-- The four named top-level sections worth 15 points each (lines 644–646). -/
def mainSections : List String :=
  ["avatar_ultra_detalhado", "escopo", "estrategia_palavras_chave", "insights_exclusivos"]

/-- Model of `_calculate_quality_score`: 15 points per named truthy section, 10 per
research key present, a 20/15/10/0 tier on `len(insights)`, clamped to 100.
`len` keeps its Python partiality: on a non-sized `insights_exclusivos`
value it is a `TypeError`. -/
def _calculate_quality_score (analysis : JVal) : Except String Rat :=
  let score : Rat := 0
  let max_score : Rat := 100
  let score := mainSections.foldl
    (fun sc s => if jmem analysis s && truthy ((jget analysis s).getD .jnull) then sc + 15 else sc)
    score
  let score := if jmem analysis "pesquisa_web_detalhada" then score + 10 else score
  let score := if jmem analysis "pesquisa_profunda" then score + 10 else score
  let insights := (jget analysis "insights_exclusivos").getD (.jarr [])
  match pyLen insights with
  | .error e => .error e
  | .ok n =>
    let score :=
      if n ≥ 5 then score + 20
      else if n ≥ 3 then score + 15
      else if n ≥ 1 then score + 10
      else score
    .ok (min score max_score)

/-! ### `_generate_fallback_analysis` (lines 669–691) and the controller -/

/-- The emergency `metadata` block (lines 678–689); its dict literal writes
`recommendation` twice, so the later string wins. -/
def emergencyMetadata (env : Env) : JVal :=
  mkObj [
    ("processing_time_seconds", .jnum 0),
    ("analysis_engine", .jstr "Emergency Fallback"),
    ("generated_at", .jstr env.nowIsoUtc),
    ("quality_score", .jnum 25),
    ("recommendation", .jstr "Configure pelo menos uma API de IA para análise completa"),
    ("available_systems", mkObj [
      ("ai_providers", providerStatusToJVal env.aiProviderStatus),
      ("search_providers", providerStatusToJVal env.searchProviderStatus)]),
    ("recommendation", .jstr "Execute nova análise com configuração completa")]

/-- Model of `_generate_fallback_analysis`: the basic analysis with two appended
insight strings (the error message and a retry recommendation) and the
emergency metadata.  Every step is a dict/list operation on the basic
analysis, whose shape is fixed, so this can be proven never to fail. -/
def _generate_fallback_analysis (env : Env) (data : AnalysisRequest)
    (error : String) : Except String JVal :=
  let basic := _generate_basic_analysis data
  match jget basic "insights_exclusivos" with
  | none => .error "KeyError: insights_exclusivos"
  | some ins =>
    match pyListAdd ins [
      .jstr ("⚠️ Erro no processamento: " ++ error),
      .jstr "🔄 Recomenda-se executar nova análise"] with
    | .error e => .error e
    | .ok ins2 =>
      match jset basic "insights_exclusivos" ins2 with
      | .error e => .error e
      | .ok b2 => jset b2 "metadata" (emergencyMetadata env)

/-- The happy-path `metadata` block (lines 61–70).  The dict literal defines
`analysis_engine` twice — `"ARQV30 Enhanced v2.0"` then
`"Emergency Fallback v2.0"` — and the later value wins. -/
def happyMetadata (env : Env) (research : ResearchData) (qs : Rat) : JVal :=
  let processing_time := env.endTime - env.startTime
  mkObj [
    ("processing_time_seconds", .jnum processing_time),
    ("processing_time_formatted", .jstr
      (toString (processing_time / 60) ++ "m " ++ toString (processing_time % 60) ++ "s")),
    ("analysis_engine", .jstr "ARQV30 Enhanced v2.0"),
    ("analysis_engine", .jstr "Emergency Fallback v2.0"),
    ("generated_at", .jstr env.nowIsoUtc),
    ("quality_score", .jnum qs),
    ("data_sources_used", .jnum research.sources.length),
    ("ai_models_used", .jnum (if env.aiManagerEnabled then 1 else 0))]

/-- The body of the `try` in `generate_comprehensive_analysis` (lines 44–73):
collect, analyse, consolidate, then attach the metadata block (computing the
quality score on the consolidated result, or `0.0` if it were falsy). -/
def pipelineTry (env : Env) (data : AnalysisRequest) : Except String JVal :=
  let research_data := _collect_comprehensive_data env data
  match _perform_comprehensive_ai_analysis env data research_data with
  | .error e => .error e
  | .ok ai_analysis =>
    match _consolidate_comprehensive_analysis env data research_data ai_analysis with
    | .error e => .error e
    | .ok final_analysis =>
      match (if truthy final_analysis then _calculate_quality_score final_analysis
             else .ok 0) with
      | .error e => .error e
      | .ok qs => jset final_analysis "metadata" (happyMetadata env research_data qs)

/-- Model of `generate_comprehensive_analysis` (lines 34–77): any exception from the
pipeline body is caught once at the top and converted to the emergency
analysis carrying the error message.  The session id is an opaque token the
engine threads but never reads. -/
def generate_comprehensive_analysis (env : Env) (data : AnalysisRequest)
    (session_id : Option String) : Except String JVal :=
  match pipelineTry env data with
  | .ok r => .ok r
  | .error e => _generate_fallback_analysis env data e

/-! ### Dictionary lemmas -/

theorem jlookup_cons (k : String) (p : String × JVal) (fs : List (String × JVal)) :
    jlookup k (p :: fs) = if p.1 == k then some p.2 else jlookup k fs := rfl

theorem jlookup_isSome (k : String) (fs : List (String × JVal)) :
    (jlookup k fs).isSome = fs.any (fun p => p.1 == k) := by
  induction fs with
  | nil => simp [jlookup]
  | cons p fs ih =>
    rw [jlookup_cons, List.any_cons]
    by_cases hp : p.1 = k
    · rw [beq_iff_eq.mpr hp, Bool.true_or]
      simp
    · rw [beq_eq_false_iff_ne.mpr hp, Bool.false_or]
      simpa using ih

theorem jlookup_eq_none (k : String) (fs : List (String × JVal))
    (h : fs.any (fun p => p.1 == k) = false) : jlookup k fs = none := by
  have hs := jlookup_isSome k fs
  rw [h] at hs
  exact Option.not_isSome_iff_eq_none.mp (by simp [hs])

theorem jlookup_append (k : String) (fs gs : List (String × JVal)) :
    jlookup k (fs ++ gs) =
      if fs.any (fun p => p.1 == k) then jlookup k fs else jlookup k gs := by
  induction fs with
  | nil => simp [jlookup]
  | cons p fs ih =>
    rw [List.cons_append, jlookup_cons, jlookup_cons, List.any_cons]
    by_cases hp : p.1 = k
    · rw [beq_iff_eq.mpr hp, Bool.true_or]
      simp
    · rw [beq_eq_false_iff_ne.mpr hp, Bool.false_or]
      simp only [Bool.false_eq_true, if_false]
      exact ih

theorem objInsert_pos (fs : List (String × JVal)) (k : String) (v : JVal)
    (h : fs.any (fun p => p.1 == k) = true) :
    objInsert fs k v = fs.map (fun p => if p.1 == k then (k, v) else p) := by
  simp [objInsert, h]

theorem objInsert_neg (fs : List (String × JVal)) (k : String) (v : JVal)
    (h : fs.any (fun p => p.1 == k) = false) :
    objInsert fs k v = fs ++ [(k, v)] := by
  simp [objInsert, h]

theorem jlookup_map_replace_self (fs : List (String × JVal)) (k : String) (v : JVal)
    (h : fs.any (fun p => p.1 == k) = true) :
    jlookup k (fs.map (fun p => if p.1 == k then (k, v) else p)) = some v := by
  induction fs with
  | nil => simp at h
  | cons p fs ih =>
    rw [List.map_cons, jlookup_cons]
    by_cases hp : p.1 = k
    · rw [beq_iff_eq.mpr hp]
      simp
    · rw [beq_eq_false_iff_ne.mpr hp]
      simp only [Bool.false_eq_true, if_false]
      rw [beq_eq_false_iff_ne.mpr hp]
      simp only [Bool.false_eq_true, if_false]
      rw [List.any_cons, beq_eq_false_iff_ne.mpr hp, Bool.false_or] at h
      exact ih h

theorem jlookup_map_replace_ne (fs : List (String × JVal)) (k k' : String) (v : JVal)
    (hne : k' ≠ k) :
    jlookup k' (fs.map (fun p => if p.1 == k then (k, v) else p)) = jlookup k' fs := by
  have hkk : (k == k') = false := beq_eq_false_iff_ne.mpr (fun e => hne e.symm)
  induction fs with
  | nil => simp [jlookup]
  | cons p fs ih =>
    rw [List.map_cons, jlookup_cons, jlookup_cons]
    by_cases hp : p.1 = k
    · have hp' : (p.1 == k') = false := by rw [hp]; exact hkk
      rw [beq_iff_eq.mpr hp]
      rw [if_pos rfl, hkk, hp']
      simp only [Bool.false_eq_true, if_false]
      exact ih
    · rw [beq_eq_false_iff_ne.mpr hp]
      simp only [Bool.false_eq_true, if_false]
      by_cases hp' : p.1 = k'
      · rw [beq_iff_eq.mpr hp']
        simp
      · rw [beq_eq_false_iff_ne.mpr hp']
        simp only [Bool.false_eq_true, if_false]
        exact ih

theorem jlookup_objInsert_self (fs : List (String × JVal)) (k : String) (v : JVal) :
    jlookup k (objInsert fs k v) = some v := by
  by_cases h : fs.any (fun p => p.1 == k) = true
  · rw [objInsert_pos fs k v h]
    exact jlookup_map_replace_self fs k v h
  · have h' : fs.any (fun p => p.1 == k) = false := by
      cases hb : fs.any (fun p => p.1 == k) with
      | false => rfl
      | true => exact absurd hb h
    rw [objInsert_neg fs k v h', jlookup_append, h']
    simp only [Bool.false_eq_true, if_false]
    rw [jlookup_cons]
    simp

theorem jlookup_objInsert_ne (fs : List (String × JVal)) (k k' : String) (v : JVal)
    (hne : k' ≠ k) : jlookup k' (objInsert fs k v) = jlookup k' fs := by
  by_cases h : fs.any (fun p => p.1 == k) = true
  · rw [objInsert_pos fs k v h]
    exact jlookup_map_replace_ne fs k k' v hne
  · have h' : fs.any (fun p => p.1 == k) = false := by
      cases hb : fs.any (fun p => p.1 == k) with
      | false => rfl
      | true => exact absurd hb h
    rw [objInsert_neg fs k v h', jlookup_append]
    by_cases hk' : fs.any (fun p => p.1 == k') = true
    · rw [if_pos hk']
    · have hk'' : fs.any (fun p => p.1 == k') = false := by
        cases hb : fs.any (fun p => p.1 == k') with
        | false => rfl
        | true => exact absurd hb hk'
      rw [hk'']
      simp only [Bool.false_eq_true, if_false]
      rw [jlookup_eq_none k' fs hk'', jlookup_cons]
      rw [beq_eq_false_iff_ne.mpr (fun e => hne e.symm)]
      simp [jlookup]

/-- Inversion for a successful Python item assignment. -/
theorem jset_ok {a : JVal} {k : String} {v r : JVal} (h : jset a k v = .ok r) :
    ∃ fs, a = .jobj fs ∧ r = .jobj (objInsert fs k v) := by
  cases a with
  | jobj fs =>
    refine ⟨fs, rfl, ?_⟩
    simpa [jset] using h.symm
  | jnull => simp [jset] at h
  | jbool b => simp [jset] at h
  | jnum q => simp [jset] at h
  | jnonfinite nf => simp [jset] at h
  | jstr s => simp [jset] at h
  | jarr xs => simp [jset] at h

/-! ### Quality-score lemmas -/

/-- A value Python's `len` accepts (string, list, dict). -/
def sizedJ : JVal → Bool
  | .jstr _ => true
  | .jarr _ => true
  | .jobj _ => true
  | _ => false

/-- The size `len` reports on a sized value (0 elsewhere, never consulted). -/
def jSize : JVal → Nat
  | .jstr s => s.length
  | .jarr xs => xs.length
  | .jobj fs => (fs.map Prod.fst).dedup.length
  | _ => 0

theorem pyLen_of_sized (v : JVal) (h : sizedJ v = true) : pyLen v = .ok (jSize v) := by
  cases v <;> simp_all [sizedJ, pyLen, jSize]

theorem pyLen_of_not_sized (v : JVal) (h : sizedJ v = false) :
    pyLen v = .error "TypeError: object has no len()" := by
  cases v <;> simp_all [sizedJ, pyLen]

/-- The insight-count tier of the quality score, as the spec states it:
`≥5 → 20`, `≥3 → 15`, `≥1 → 10`, else 0. -/
def insightTier (n : Nat) : Rat :=
  if n ≥ 5 then 20 else if n ≥ 3 then 15 else if n ≥ 1 then 10 else 0

/-- Present-and-non-empty test for a named top-level section, as the scorer
tests it (`section in analysis and analysis[section]`). -/
def sectionHit (analysis : JVal) (s : String) : Bool :=
  jmem analysis s && truthy ((jget analysis s).getD .jnull)

/-- The quality-score formula exactly as the spec words it: 15 points per
named section present and non-empty, 10 per research key present, the
insight-count tier, the total clamped to at most 100. -/
def specQualityScore (analysis : JVal) : Rat :=
  min (15 * (mainSections.countP (sectionHit analysis)) +
    (if jmem analysis "pesquisa_web_detalhada" then (10 : Rat) else 0) +
    (if jmem analysis "pesquisa_profunda" then (10 : Rat) else 0) +
    insightTier (jSize ((jget analysis "insights_exclusivos").getD (.jarr [])))) 100

theorem foldl_sections (f : String → Bool) (l : List String) (c : Rat) :
    l.foldl (fun sc s => if f s then sc + 15 else sc) c = c + 15 * l.countP f := by
  induction l generalizing c with
  | nil => simp
  | cons a l ih =>
    rw [List.foldl_cons, List.countP_cons, ih]
    split_ifs <;> push_cast <;> ring

theorem ite_add_right (b : Bool) (x y : Rat) :
    (if b then x + y else x) = x + (if b then y else 0) := by
  cases b <;> simp

theorem tier_add (n : Nat) (x : Rat) :
    (if n ≥ 5 then x + 20 else if n ≥ 3 then x + 15 else if n ≥ 1 then x + 10 else x) =
      x + insightTier n := by
  unfold insightTier
  split_ifs <;> simp

/-- The scorer computes exactly the spec formula whenever the
insights value has a length. -/
theorem qscore_char (analysis : JVal)
    (h : sizedJ ((jget analysis "insights_exclusivos").getD (.jarr [])) = true) :
    _calculate_quality_score analysis = .ok (specQualityScore analysis) := by
  have hlen := pyLen_of_sized _ h
  simp only [_calculate_quality_score, hlen]
  rw [foldl_sections (fun s => jmem analysis s && truthy ((jget analysis s).getD .jnull))
    mainSections 0]
  rw [ite_add_right, ite_add_right, tier_add]
  simp only [specQualityScore]
  have hfun : (sectionHit analysis) =
      fun s => jmem analysis s && truthy ((jget analysis s).getD .jnull) := rfl
  rw [hfun]
  congr 1
  congr 1
  ring

theorem qscore_error (analysis : JVal)
    (h : sizedJ ((jget analysis "insights_exclusivos").getD (.jarr [])) = false) :
    _calculate_quality_score analysis = .error "TypeError: object has no len()" := by
  have hlen := pyLen_of_not_sized _ h
  simp only [_calculate_quality_score, hlen]

theorem insightTier_nonneg (n : Nat) : 0 ≤ insightTier n := by
  unfold insightTier
  split_ifs <;> norm_num

theorem insightTier_mono {n m : Nat} (h : n ≤ m) : insightTier n ≤ insightTier m := by
  unfold insightTier
  split_ifs <;> try norm_num
  all_goals omega

theorem specQualityScore_bounds (analysis : JVal) :
    0 ≤ specQualityScore analysis ∧ specQualityScore analysis ≤ 100 := by
  unfold specQualityScore
  constructor
  · apply le_min
    · have h1 : (0 : Rat) ≤ 15 * (mainSections.countP (sectionHit analysis)) := by positivity
      have h2 : (0 : Rat) ≤ (if jmem analysis "pesquisa_web_detalhada" then (10 : Rat) else 0) := by
        split_ifs <;> norm_num
      have h3 : (0 : Rat) ≤ (if jmem analysis "pesquisa_profunda" then (10 : Rat) else 0) := by
        split_ifs <;> norm_num
      have h4 := insightTier_nonneg (jSize ((jget analysis "insights_exclusivos").getD (.jarr [])))
      linarith
    · norm_num
  · exact min_le_right _ _

/-- Any score the scorer actually returns lies in `[0, 100]`. -/
theorem qscore_ok_bounds {analysis : JVal} {q : Rat}
    (h : _calculate_quality_score analysis = .ok q) : 0 ≤ q ∧ q ≤ 100 := by
  cases hs : sizedJ ((jget analysis "insights_exclusivos").getD (.jarr [])) with
  | false =>
    rw [qscore_error analysis hs] at h
    cases h
  | true =>
    rw [qscore_char analysis hs] at h
    cases h
    exact specQualityScore_bounds analysis

/-! ### Monotonicity of the quality score -/

theorem jmem_jobj (fs : List (String × JVal)) (k : String) :
    jmem (.jobj fs) k = fs.any (fun p => p.1 == k) := rfl

theorem jget_jobj (fs : List (String × JVal)) (k : String) :
    jget (.jobj fs) k = jlookup k fs := rfl

theorem keys_map_replace (fs : List (String × JVal)) (k : String) (v : JVal) :
    (fs.map (fun p => if p.1 == k then (k, v) else p)).map Prod.fst = fs.map Prod.fst := by
  induction fs with
  | nil => rfl
  | cons p fs ih =>
    rw [List.map_cons, List.map_cons, List.map_cons]
    by_cases hp : p.1 = k
    · rw [beq_iff_eq.mpr hp, if_pos rfl, ih]
      simp [hp]
    · rw [beq_eq_false_iff_ne.mpr hp]
      simp only [Bool.false_eq_true, if_false]
      rw [ih]

theorem any_keys (gs fs : List (String × JVal))
    (h : gs.map Prod.fst = fs.map Prod.fst) (k' : String) :
    gs.any (fun p => p.1 == k') = fs.any (fun p => p.1 == k') := by
  have key : ∀ (hs : List (String × JVal)),
      hs.any (fun p => p.1 == k') = (hs.map Prod.fst).any (fun x => x == k') := by
    intro hs
    induction hs with
    | nil => rfl
    | cons p hs ih => simp [List.any_cons, ih]
  rw [key gs, key fs, h]

theorem any_objInsert_of_mem (fs : List (String × JVal)) (k : String) (v : JVal)
    (h : fs.any (fun p => p.1 == k) = true) (k' : String) :
    (objInsert fs k v).any (fun p => p.1 == k') = fs.any (fun p => p.1 == k') := by
  rw [objInsert_pos _ _ _ h]
  exact any_keys _ _ (keys_map_replace fs k v) k'

theorem ite_ten_mono {a b : Bool} (h : a = true → b = true) :
    (if a then (10 : Rat) else 0) ≤ (if b then 10 else 0) := by
  cases a
  · cases b <;> norm_num
  · rw [h rfl]

/-- Adding a previously-absent key can only raise the score (both scores
assumed to exist). -/
theorem qscore_mono_newkey (fs : List (String × JVal)) (k : String) (v : JVal)
    (s s' : Rat) (hk : fs.any (fun p => p.1 == k) = false)
    (h1 : _calculate_quality_score (.jobj fs) = .ok s)
    (h2 : _calculate_quality_score (.jobj (fs ++ [(k, v)])) = .ok s') : s ≤ s' := by
  cases hs1 : sizedJ ((jget (.jobj fs) "insights_exclusivos").getD (.jarr [])) with
  | false => rw [qscore_error _ hs1] at h1; cases h1
  | true =>
  cases hs2 : sizedJ ((jget (.jobj (fs ++ [(k, v)])) "insights_exclusivos").getD (.jarr [])) with
  | false => rw [qscore_error _ hs2] at h2; cases h2
  | true =>
  rw [qscore_char _ hs1] at h1
  rw [qscore_char _ hs2] at h2
  cases h1
  cases h2
  unfold specQualityScore
  apply min_le_min _ le_rfl
  have hcount : mainSections.countP (sectionHit (.jobj fs)) ≤
      mainSections.countP (sectionHit (.jobj (fs ++ [(k, v)]))) := by
    apply List.countP_mono_left
    intro sec _ hhit
    unfold sectionHit at hhit ⊢
    rw [Bool.and_eq_true] at hhit ⊢
    obtain ⟨hmem, htr⟩ := hhit
    rw [jmem_jobj] at hmem
    constructor
    · rw [jmem_jobj, List.any_append, hmem, Bool.true_or]
    · rw [jget_jobj] at htr ⊢
      rw [jlookup_append, if_pos hmem]
      exact htr
  have hweb : jmem (.jobj fs) "pesquisa_web_detalhada" = true →
      jmem (.jobj (fs ++ [(k, v)])) "pesquisa_web_detalhada" = true := by
    intro hm
    rw [jmem_jobj] at hm
    rw [jmem_jobj, List.any_append, hm, Bool.true_or]
  have hdeep : jmem (.jobj fs) "pesquisa_profunda" = true →
      jmem (.jobj (fs ++ [(k, v)])) "pesquisa_profunda" = true := by
    intro hm
    rw [jmem_jobj] at hm
    rw [jmem_jobj, List.any_append, hm, Bool.true_or]
  have htier : insightTier (jSize ((jget (.jobj fs) "insights_exclusivos").getD (.jarr []))) ≤
      insightTier (jSize ((jget (.jobj (fs ++ [(k, v)])) "insights_exclusivos").getD (.jarr []))) := by
    by_cases hcase : fs.any (fun p => p.1 == "insights_exclusivos") = true
    · rw [jget_jobj, jget_jobj, jlookup_append, if_pos hcase]
    · have hnone : fs.any (fun p => p.1 == "insights_exclusivos") = false := by
        cases hb : fs.any (fun p => p.1 == "insights_exclusivos") with
        | false => rfl
        | true => exact absurd hb hcase
      rw [jget_jobj, jget_jobj, jlookup_append, hnone, jlookup_eq_none _ _ hnone]
      simp only [Bool.false_eq_true, if_false]
      by_cases hkey : k = "insights_exclusivos"
      · rw [jlookup_cons]
        have : (k == "insights_exclusivos") = true := beq_iff_eq.mpr hkey
        rw [this, if_pos rfl]
        simp only [Option.getD_some, Option.getD_none]
        have h0 : insightTier (jSize (JVal.jarr [])) = 0 := by
          simp [jSize, insightTier]
        rw [h0]
        exact insightTier_nonneg _
      · rw [jlookup_cons]
        have : (k == "insights_exclusivos") = false := beq_eq_false_iff_ne.mpr hkey
        rw [this]
        simp only [Bool.false_eq_true, if_false, jlookup]
        exact le_rfl
  have c15 : (15 : Rat) * (mainSections.countP (sectionHit (.jobj fs))) ≤
      15 * (mainSections.countP (sectionHit (.jobj (fs ++ [(k, v)])))) := by
    gcongr
  exact add_le_add (add_le_add (add_le_add c15 (ite_ten_mono hweb)) (ite_ten_mono hdeep)) htier

/-- Appending entries to an existing `insights_exclusivos` list can only
raise the score (both scores assumed to exist). -/
theorem qscore_mono_appendins (fs : List (String × JVal)) (l m : List JVal)
    (s s' : Rat) (hget : jlookup "insights_exclusivos" fs = some (.jarr l))
    (h1 : _calculate_quality_score (.jobj fs) = .ok s)
    (h2 : _calculate_quality_score
      (.jobj (objInsert fs "insights_exclusivos" (.jarr (l ++ m)))) = .ok s') : s ≤ s' := by
  have hmem : fs.any (fun p => p.1 == "insights_exclusivos") = true := by
    have := jlookup_isSome "insights_exclusivos" fs
    rw [hget] at this
    exact this.symm
  cases hs1 : sizedJ ((jget (.jobj fs) "insights_exclusivos").getD (.jarr [])) with
  | false => rw [qscore_error _ hs1] at h1; cases h1
  | true =>
  cases hs2 : sizedJ ((jget (.jobj (objInsert fs "insights_exclusivos" (.jarr (l ++ m))))
      "insights_exclusivos").getD (.jarr [])) with
  | false => rw [qscore_error _ hs2] at h2; cases h2
  | true =>
  rw [qscore_char _ hs1] at h1
  rw [qscore_char _ hs2] at h2
  cases h1
  cases h2
  unfold specQualityScore
  apply min_le_min _ le_rfl
  have hkeys : ∀ k', (objInsert fs "insights_exclusivos" (.jarr (l ++ m))).any
      (fun p => p.1 == k') = fs.any (fun p => p.1 == k') :=
    fun k' => any_objInsert_of_mem fs _ _ hmem k'
  have hcount : mainSections.countP (sectionHit (.jobj fs)) ≤
      mainSections.countP (sectionHit (.jobj (objInsert fs "insights_exclusivos" (.jarr (l ++ m))))) := by
    apply List.countP_mono_left
    intro sec _ hhit
    unfold sectionHit at hhit ⊢
    rw [Bool.and_eq_true] at hhit ⊢
    obtain ⟨hm, htr⟩ := hhit
    rw [jmem_jobj] at hm
    refine ⟨by rw [jmem_jobj, hkeys sec]; exact hm, ?_⟩
    rw [jget_jobj] at htr ⊢
    by_cases hsec : sec = "insights_exclusivos"
    · subst hsec
      rw [jlookup_objInsert_self]
      rw [hget] at htr
      simp only [Option.getD_some] at htr ⊢
      simp only [truthy] at htr ⊢
      simp only [Bool.not_eq_true'] at htr ⊢
      cases l with
      | nil => simp at htr
      | cons a l => simp
    · rw [jlookup_objInsert_ne fs _ _ _ hsec]
      exact htr
  have hweb : jmem (.jobj fs) "pesquisa_web_detalhada" = true →
      jmem (.jobj (objInsert fs "insights_exclusivos" (.jarr (l ++ m)))) "pesquisa_web_detalhada" = true := by
    intro hm
    rw [jmem_jobj] at hm ⊢
    rw [hkeys]
    exact hm
  have hdeep : jmem (.jobj fs) "pesquisa_profunda" = true →
      jmem (.jobj (objInsert fs "insights_exclusivos" (.jarr (l ++ m)))) "pesquisa_profunda" = true := by
    intro hm
    rw [jmem_jobj] at hm ⊢
    rw [hkeys]
    exact hm
  have htier : insightTier (jSize ((jget (.jobj fs) "insights_exclusivos").getD (.jarr []))) ≤
      insightTier (jSize ((jget (.jobj (objInsert fs "insights_exclusivos" (.jarr (l ++ m))))
        "insights_exclusivos").getD (.jarr []))) := by
    rw [jget_jobj, jget_jobj, hget, jlookup_objInsert_self]
    simp only [Option.getD_some, jSize]
    apply insightTier_mono
    simp
  have c15 : (15 : Rat) * (mainSections.countP (sectionHit (.jobj fs))) ≤
      15 * (mainSections.countP (sectionHit (.jobj (objInsert fs "insights_exclusivos" (.jarr (l ++ m)))))) := by
    gcongr
  exact add_le_add (add_le_add (add_le_add c15 (ite_ten_mono hweb)) (ite_ten_mono hdeep)) htier

/-! ### Pipeline-shape lemmas -/

/-- The emergency path always succeeds, and its metadata is the emergency
metadata block (so in particular `quality_score = 25`). -/
theorem fallback_ok (env : Env) (data : AnalysisRequest) (err : String) :
    ∃ fs, _generate_fallback_analysis env data err = .ok (.jobj fs) ∧
      jlookup "metadata" fs = some (emergencyMetadata env) := by
  refine ⟨_, rfl, ?_⟩
  exact jlookup_objInsert_self _ _ _

/-- Elimination for a successful run of the `try` body: the result is the
consolidated analysis with the (doubly-keyed) metadata block inserted, and
the recorded quality score is either a score the scorer returned or the
`0.0` of the falsy branch. -/
theorem pipelineTry_ok_elim {env : Env} {data : AnalysisRequest} {r : JVal}
    (h : pipelineTry env data = .ok r) :
    ∃ ai final fsF qs,
      _perform_comprehensive_ai_analysis env data (_collect_comprehensive_data env data) = .ok ai ∧
      _consolidate_comprehensive_analysis env data (_collect_comprehensive_data env data) ai = .ok final ∧
      final = .jobj fsF ∧
      ((truthy final = true ∧ _calculate_quality_score final = .ok qs) ∨
        (truthy final = false ∧ qs = 0)) ∧
      r = .jobj (objInsert fsF "metadata"
        (happyMetadata env (_collect_comprehensive_data env data) qs)) := by
  simp only [pipelineTry] at h
  split at h
  next e heq => cases h
  next ai heq =>
    split at h
    next e heq2 => cases h
    next final heq2 =>
      split at h
      next e heq3 => cases h
      next qs heq3 =>
        obtain ⟨fsF, hfin, hr⟩ := jset_ok h
        refine ⟨ai, final, fsF, qs, heq, heq2, hfin, ?_, hr⟩
        by_cases ht : truthy final = true
        · rw [if_pos ht] at heq3
          exact Or.inl ⟨ht, heq3⟩
        · rw [if_neg ht] at heq3
          cases heq3
          exact Or.inr ⟨by simpa using ht, rfl⟩

/-- Elimination for a successful consolidation: the final value is a dict
whose last insertion is the `sistemas_utilizados` block. -/
theorem consolidate_ok_elim {env : Env} {data : AnalysisRequest}
    {research : ResearchData} {ai final : JVal}
    (h : _consolidate_comprehensive_analysis env data research ai = .ok final) :
    ∃ fs3, final = .jobj (objInsert fs3 "sistemas_utilizados"
      (sistemasUtilizadosBlock env research)) := by
  simp only [_consolidate_comprehensive_analysis] at h
  split at h
  next e heq => cases h
  next c1 heq =>
    split at h
    next e heq2 => cases h
    next c2 heq2 =>
      split at h
      next e heq3 => cases h
      next c3 heq3 =>
        obtain ⟨fs3, _, hfin⟩ := jset_ok h
        exact ⟨fs3, hfin⟩

/-! ### Collection lemmas -/

theorem extractLoop_sources (env : Env) (rs : List SearchResult) (ctxQ : Option String)
    (st : ResearchData) : ((extractLoop env rs ctxQ st).1).sources = st.sources := by
  induction rs generalizing st with
  | nil => rfl
  | cons r rs ih =>
    rw [extractLoop]
    cases hx : env.extractContent r.url with
    | error e => rfl
    | ok content =>
      cases htr : truthyStr content
      · simp only [htr, Bool.false_eq_true, if_false]
        exact ih st
      · simp only [htr, if_pos rfl]
        exact ih _

theorem queryLoop_sources (env : Env) (qs : List String) (st : ResearchData) :
    ((queryLoop env qs st).1).sources = st.sources := by
  induction qs generalizing st with
  | nil => rfl
  | cons q qs ih =>
    rw [queryLoop]
    split
    · rfl
    · next cr heq =>
      dsimp only
      split
      · next st2 heq2 =>
        have hel := extractLoop_sources env (cr.take 3) (some q)
          { st with search_results := st.search_results ++ cr }
        rw [heq2] at hel
        simpa using hel
      · next st2 heq2 =>
        have hel := extractLoop_sources env (cr.take 3) (some q)
          { st with search_results := st.search_results ++ cr }
        rw [heq2] at hel
        simp only at hel
        rw [ih st2]
        simpa using hel

/-- With no free-text query, the `sources` list is never assigned: phase 1
is skipped and phase 2 never touches it. -/
theorem collect_sources_nil (env : Env) (data : AnalysisRequest)
    (h : optTruthy data.query = false) :
    (_collect_comprehensive_data env data).sources = [] := by
  unfold _collect_comprehensive_data collectPhase1
  rw [h, Bool.and_false]
  simp only [Bool.false_eq_true, if_false]
  unfold collectPhase2
  by_cases hseg : (env.searchManagerEnabled && optTruthy data.segmento) = true
  · rw [if_pos hseg, queryLoop_sources]
    rfl
  · rw [if_neg hseg]
    rfl

/-- The page kept for one search result when extraction returns `ext r.url`:
dropped exactly when the returned text is empty (the collaborator's
contractual failure mode). -/
def keptPage (ext : String → String) (ctxQ : Option String) (r : SearchResult) :
    Option ExtractedPage :=
  if truthyStr (ext r.url) then some ⟨r.url, r.title, ext r.url, r.source, ctxQ⟩ else none

/-- The bundle the amended §4.1 contract promises when no collaborator call
raises: every search hit accumulated, extraction bounded to the top 15 (free
query) and top 3 per contextual query, empty-content extractions dropped
item-wise, `sources` drawn from the free-query results only. -/
def collectSpec (env : Env) (ext : String → String)
    (srch msrch : String → Nat → List SearchResult) (data : AnalysisRequest) :
    ResearchData :=
  let phase1Active := env.searchManagerEnabled && optTruthy data.query
  let sr := if phase1Active then msrch (data.query.getD "") 8 else []
  let pages1 := (sr.take 15).filterMap (keptPage ext none)
  let queries := if env.searchManagerEnabled && optTruthy data.segmento then
    contextualQueries (data.segmento.getD "") else []
  let ctxResults := queries.flatMap (fun q => srch q 5)
  let pages2 := queries.flatMap (fun q => ((srch q 5).take 3).filterMap (keptPage ext (some q)))
  { search_results := sr ++ ctxResults
    extracted_content := pages1 ++ pages2
    market_intelligence := []
    sources := if phase1Active then sr.map (fun r => ⟨r.url, r.title, r.source⟩) else []
    total_content_length := ((pages1 ++ pages2).map (fun p => p.content.length)).sum }

theorem extractLoop_allOk (env : Env) (ext : String → String)
    (hx : ∀ u, env.extractContent u = .ok (ext u)) (rs : List SearchResult)
    (ctxQ : Option String) (st : ResearchData) :
    extractLoop env rs ctxQ st =
      ({ st with
         extracted_content := st.extracted_content ++ rs.filterMap (keptPage ext ctxQ),
         total_content_length := st.total_content_length +
           ((rs.filterMap (keptPage ext ctxQ)).map (fun p => p.content.length)).sum }, false) := by
  induction rs generalizing st with
  | nil => simp [extractLoop]
  | cons r rs ih =>
    rw [extractLoop, hx r.url]
    cases htr : truthyStr (ext r.url)
    · simp only [htr, Bool.false_eq_true, if_false]
      rw [ih st]
      simp [List.filterMap_cons, keptPage, htr]
    · simp only [htr, if_pos rfl]
      rw [ih]
      simp [List.filterMap_cons, keptPage, htr]
      omega

theorem queryLoop_allOk (env : Env) (ext : String → String)
    (srch : String → Nat → List SearchResult)
    (hx : ∀ u, env.extractContent u = .ok (ext u))
    (hs : ∀ q n, env.search q n = .ok (srch q n)) (qs : List String)
    (st : ResearchData) :
    queryLoop env qs st =
      ({ st with
         search_results := st.search_results ++ qs.flatMap (fun q => srch q 5),
         extracted_content := st.extracted_content ++
           qs.flatMap (fun q => ((srch q 5).take 3).filterMap (keptPage ext (some q))),
         total_content_length := st.total_content_length +
           ((qs.flatMap (fun q => ((srch q 5).take 3).filterMap (keptPage ext (some q)))).map
             (fun p => p.content.length)).sum }, false) := by
  induction qs generalizing st with
  | nil => simp [queryLoop]
  | cons q qs ih =>
    rw [queryLoop, hs q 5]
    dsimp only
    rw [extractLoop_allOk env ext hx]
    dsimp only
    rw [ih]
    simp [List.flatMap_cons]
    omega

/-- When no collaborator call raises, `_collect_comprehensive_data` returns
exactly the bundle of `collectSpec`: per-item isolation of the empty-content
failure mode, all queries processed, sources from the free query only. -/
theorem collect_allOk (env : Env) (ext : String → String)
    (srch msrch : String → Nat → List SearchResult) (data : AnalysisRequest)
    (hx : ∀ u, env.extractContent u = .ok (ext u))
    (hs : ∀ q n, env.search q n = .ok (srch q n))
    (hm : ∀ q n, env.multiSearch q n = .ok (msrch q n)) :
    _collect_comprehensive_data env data = collectSpec env ext srch msrch data := by
  have h1 : collectPhase1 env data emptyResearchData =
      (if env.searchManagerEnabled && optTruthy data.query then
        { search_results := msrch (data.query.getD "") 8
          extracted_content :=
            ((msrch (data.query.getD "") 8).take 15).filterMap (keptPage ext none)
          market_intelligence := []
          sources := (msrch (data.query.getD "") 8).map (fun r => ⟨r.url, r.title, r.source⟩)
          total_content_length :=
            ((((msrch (data.query.getD "") 8).take 15).filterMap (keptPage ext none)).map
              (fun p => p.content.length)).sum }
      else emptyResearchData) := by
    unfold collectPhase1
    by_cases hact : (env.searchManagerEnabled && optTruthy data.query) = true
    · rw [if_pos hact, if_pos hact, hm]
      dsimp only
      rw [extractLoop_allOk env ext hx]
      simp [emptyResearchData]
    · rw [if_neg hact, if_neg hact]
  unfold _collect_comprehensive_data
  rw [h1]
  unfold collectPhase2 collectSpec
  by_cases hact : (env.searchManagerEnabled && optTruthy data.query) = true
  <;> by_cases hseg : (env.searchManagerEnabled && optTruthy data.segmento) = true
  · rw [if_pos hact, if_pos hseg, queryLoop_allOk env ext srch hx hs]
    simp [hact, hseg, emptyResearchData]
  · rw [if_pos hact, if_neg hseg]
    simp [hact, hseg, emptyResearchData]
  · rw [if_neg hact, if_pos hseg, queryLoop_allOk env ext srch hx hs]
    simp [hact, hseg, emptyResearchData]
  · rw [if_neg hact, if_neg hseg]
    simp [hact, hseg, emptyResearchData]

/-! ### Claim theorems -/

/-- Two-level dict lookup, for stating metadata facts. -/
def jget2 (v : JVal) (k1 k2 : String) : Option JVal :=
  match jget v k1 with
  | some m => jget m k2
  | none => none

/-- An empty business brief, for concrete instantiations. -/
def noneRequest : AnalysisRequest :=
  ⟨none, none, none, none, none, none, none, none, none, none⟩

/-- A baseline concrete environment: every collaborator succeeds, the model
returns the empty JSON object. -/
def witEnvBase : Env := {
  aiManagerEnabled := true
  searchManagerEnabled := true
  contentExtractorEnabled := true
  multiSearch := fun _ _ => .ok []
  search := fun _ _ => .ok []
  extractContent := fun _ => .ok ""
  generateAnalysis := fun _ _ => .ok "\x7b\x7d"
  aiProviderStatus := [("gemini", true)]
  searchProviderStatus := [("google", true)]
  startTime := 0
  endTime := 65
  nowIsoUtc := "2024-01-01T00:00:00"
  nowIsoLocal := "2024-01-01T00:00:01"
  nowFmt := "01/01/2024 00:00" }

/-- C1: for every environment and request, `generate_comprehensive_analysis`
returns (never raises) a mapping whose `metadata` block carries a numeric
`quality_score` lying in `[0, 100]` — on the normal path because the scorer
clamps into that range (or the falsy branch writes `0.0`), and on the
emergency path because the fallback writes the fixed `25.0` and itself never
raises. -/
theorem C1_run_returns_metadata_quality_score_in_range :
    ∀ (env : Env) (data : AnalysisRequest) (sid : Option String),
    ∃ (fs : List (String × JVal)) (md : JVal) (q : Rat),
      generate_comprehensive_analysis env data sid = .ok (.jobj fs) ∧
      jget (.jobj fs) "metadata" = some md ∧
      jget md "quality_score" = some (.jnum q) ∧ 0 ≤ q ∧ q ≤ 100 := by
  intro env data sid
  unfold generate_comprehensive_analysis
  cases hp : pipelineTry env data with
  | ok r =>
    obtain ⟨ai, final, fsF, qs, _, _, hfin, hqs, hr⟩ := pipelineTry_ok_elim hp
    subst hr
    refine ⟨_, happyMetadata env (_collect_comprehensive_data env data) qs, qs, rfl,
      jlookup_objInsert_self _ _ _, rfl, ?_, ?_⟩
    · rcases hqs with ⟨_, hq⟩ | ⟨_, hq0⟩
      · exact (qscore_ok_bounds hq).1
      · rw [hq0]
    · rcases hqs with ⟨_, hq⟩ | ⟨_, hq0⟩
      · exact (qscore_ok_bounds hq).2
      · rw [hq0]
        norm_num
  | error e =>
    obtain ⟨fs, hok, hmd⟩ := fallback_ok env data e
    exact ⟨fs, emergencyMetadata env, 25, hok, hmd, rfl, by norm_num, by norm_num⟩

/-- C9: on the successful (non-emergency) path, the metadata block reports
`analysis_engine = "Emergency Fallback v2.0"` — the dict literal of lines
61–70 writes `analysis_engine` twice and the later value overrides the
`"ARQV30 Enhanced v2.0"` written first. -/
theorem C9_success_path_engine_name_is_emergency_fallback :
    ∀ (env : Env) (data : AnalysisRequest) (r : JVal),
    pipelineTry env data = .ok r →
    jget2 r "metadata" "analysis_engine" = some (.jstr "Emergency Fallback v2.0") := by
  intro env data r hp
  obtain ⟨ai, final, fsF, qs, _, _, _, _, hr⟩ := pipelineTry_ok_elim hp
  subst hr
  unfold jget2
  rw [show jget (.jobj (objInsert fsF "metadata"
      (happyMetadata env (_collect_comprehensive_data env data) qs))) "metadata" =
      some (happyMetadata env (_collect_comprehensive_data env data) qs) from
    jlookup_objInsert_self _ _ _]
  rfl

/-- The concrete result for the C9 witness run. -/
def c9wResult : JVal :=
  match pipelineTry witEnvBase noneRequest with
  | .ok r => r
  | .error _ => .jnull

theorem C9_witness :
    jget2 c9wResult "metadata" "analysis_engine" =
      some (.jstr "Emergency Fallback v2.0") :=
  C9_success_path_engine_name_is_emergency_fallback witEnvBase noneRequest c9wResult rfl

/-- C10: `sources` is populated only by the free-text-query multi-provider
phase; contextual results extend `search_results` but never `sources`.  So a
request with no free-text query leaves `sources` empty, and on the
successful path both `metadata.data_sources_used` and
`sistemas_utilizados.total_sources` report 0 even when contextual searches
returned results. -/
theorem C10_no_query_means_zero_sources :
    ∀ (env : Env) (data : AnalysisRequest) (r : JVal),
    optTruthy data.query = false →
    pipelineTry env data = .ok r →
    (_collect_comprehensive_data env data).sources = [] ∧
    jget2 r "metadata" "data_sources_used" = some (.jnum 0) ∧
    jget2 r "sistemas_utilizados" "total_sources" = some (.jnum 0) := by
  intro env data r hq hp
  have hsrc := collect_sources_nil env data hq
  obtain ⟨ai, final, fsF, qs, ha, hc, hfin, _, hr⟩ := pipelineTry_ok_elim hp
  refine ⟨hsrc, ?_, ?_⟩
  · subst hr
    unfold jget2
    rw [show jget (.jobj (objInsert fsF "metadata"
        (happyMetadata env (_collect_comprehensive_data env data) qs))) "metadata" =
        some (happyMetadata env (_collect_comprehensive_data env data) qs) from
      jlookup_objInsert_self _ _ _]
    have hlook : jget (happyMetadata env (_collect_comprehensive_data env data) qs)
        "data_sources_used" =
        some (.jnum ((_collect_comprehensive_data env data).sources.length : Rat)) := rfl
    show jget (happyMetadata env (_collect_comprehensive_data env data) qs)
        "data_sources_used" = some (.jnum 0)
    rw [hlook, hsrc]
    norm_num
  · obtain ⟨fs3, hfin3⟩ := consolidate_ok_elim hc
    rw [hfin] at hfin3
    cases hfin3
    subst hr
    unfold jget2
    have hne : ("sistemas_utilizados" : String) ≠ "metadata" := by decide
    have h1 : jget (.jobj (objInsert (objInsert fs3 "sistemas_utilizados"
        (sistemasUtilizadosBlock env (_collect_comprehensive_data env data))) "metadata"
        (happyMetadata env (_collect_comprehensive_data env data) qs)))
        "sistemas_utilizados" =
        some (sistemasUtilizadosBlock env (_collect_comprehensive_data env data)) := by
      show jlookup "sistemas_utilizados" _ = _
      rw [jlookup_objInsert_ne _ _ _ _ hne]
      exact jlookup_objInsert_self _ _ _
    rw [h1]
    have hlook : jget (sistemasUtilizadosBlock env (_collect_comprehensive_data env data))
        "total_sources" =
        some (.jnum ((_collect_comprehensive_data env data).sources.length : Rat)) := rfl
    show jget (sistemasUtilizadosBlock env (_collect_comprehensive_data env data))
        "total_sources" = some (.jnum 0)
    rw [hlook, hsrc]
    norm_num

/-- A C10 witness environment: contextual searches return one result each. -/
def c10wEnv : Env :=
  { witEnvBase with search := fun _ _ => .ok [⟨"http://ex.com/a", "T", "S", "prov"⟩] }

/-- A C10 witness request: a segment but no free-text query. -/
def c10wData : AnalysisRequest := { noneRequest with segmento := some "moda" }

/-- The concrete result for the C10 witness run. -/
def c10wResult : JVal :=
  match pipelineTry c10wEnv c10wData with
  | .ok r => r
  | .error _ => .jnull

theorem C10_witness :
    (_collect_comprehensive_data c10wEnv c10wData).sources = [] ∧
    jget2 c10wResult "metadata" "data_sources_used" = some (.jnum 0) ∧
    jget2 c10wResult "sistemas_utilizados" "total_sources" = some (.jnum 0) :=
  C10_no_query_means_zero_sources c10wEnv c10wData c10wResult rfl rfl

/-- A fixed search hit for the C2 instantiations. -/
def c2Hit : SearchResult := ⟨"http://ex.com/a", "T", "S", "prov"⟩

/-- A C2 counterexample environment: the search collaborator raises on the
first contextual query and succeeds on the others. -/
def c2cexEnv : Env :=
  { witEnvBase with
    search := fun q _ =>
      (if q == "mercado moda Brasil 2024 tendências" then Except.error "boom"
       else Except.ok [c2Hit]) }

/-- The C2 counterexample request: a segment, no free-text query. -/
def c2cexData : AnalysisRequest := { noneRequest with segmento := some "moda" }

/-- C2 counterexample: the search collaborator fails only on the *first*
contextual query and would return a hit for the second and third, yet the
collected bundle contains no search results at all — the exception is caught
around the whole contextual phase (lines 123–150), so the remaining queries
are never run, refuting "only that item is dropped … still processes the
remaining contextual queries". -/
theorem C2_counterexample :
    c2cexEnv.search "análise competitiva moda oportunidades" 5 = .ok [c2Hit] ∧
    c2cexEnv.search "dados estatísticos moda crescimento" 5 = .ok [c2Hit] ∧
    (_collect_comprehensive_data c2cexEnv c2cexData).search_results = [] :=
  ⟨rfl, rfl, rfl⟩

/-- C2 (amended): collection never raises, and per-item isolation holds for
the extraction collaborator's contractual failure mode (empty content drops
just that page).  When no collaborator call raises, the bundle is exactly
`collectSpec`: all search hits of every query accumulated in order,
extraction bounded to the top 15 (free query) and top 3 (per contextual
query), and `sources` drawn from the free-query results only.  A *raised*
collaborator exception is instead caught at the enclosing phase, dropping
the remainder of that phase (see the counterexample). -/
theorem C2_amended_collect_accumulates_when_no_raise :
    ∀ (env : Env) (ext : String → String)
      (srch msrch : String → Nat → List SearchResult) (data : AnalysisRequest),
    (∀ u, env.extractContent u = .ok (ext u)) →
    (∀ q n, env.search q n = .ok (srch q n)) →
    (∀ q n, env.multiSearch q n = .ok (msrch q n)) →
    _collect_comprehensive_data env data = collectSpec env ext srch msrch data :=
  fun env ext srch msrch data hx hs hm => collect_allOk env ext srch msrch data hx hs hm

/-- A C2 witness environment: extraction yields text for one URL and empty
content (the soft failure) for every other. -/
def c2wEnv : Env :=
  { witEnvBase with
    multiSearch := fun _ _ => .ok [c2Hit, ⟨"http://ex.com/b", "U", "S2", "prov"⟩]
    search := fun _ _ => .ok [c2Hit]
    extractContent := fun u => .ok (if u == "http://ex.com/a" then "text" else "") }

/-- The C2 witness request: both a free-text query and a segment. -/
def c2wData : AnalysisRequest :=
  { noneRequest with segmento := some "moda", query := some "moda Brasil" }

theorem C2_witness :
    _collect_comprehensive_data c2wEnv c2wData =
      collectSpec c2wEnv (fun u => if u == "http://ex.com/a" then "text" else "")
        (fun _ _ => [c2Hit]) (fun _ _ => [c2Hit, ⟨"http://ex.com/b", "U", "S2", "prov"⟩])
        c2wData :=
  C2_amended_collect_accumulates_when_no_raise c2wEnv
    (fun u => if u == "http://ex.com/a" then "text" else "")
    (fun _ _ => [c2Hit]) (fun _ _ => [c2Hit, ⟨"http://ex.com/b", "U", "S2", "prov"⟩])
    c2wData (fun _ => rfl) (fun _ _ => rfl) (fun _ _ => rfl)

/-- Two environments identical except for the wall-clock reading the prompt
interpolates. -/
def c3cexEnvA : Env := { witEnvBase with nowFmt := "" }

/-- See `c3cexEnvA`: same environment, one character later clock text. -/
def c3cexEnvB : Env := { witEnvBase with nowFmt := "X" }

theorem string_append_data (s t : String) : (s ++ t).data = s.data ++ t.data := by
  cases s
  cases t
  rfl

/-- C3 counterexample: two builds with identical request fields and an
identical (empty) research context produce different prompt strings, because
the template interpolates `datetime.now().strftime('%d/%m/%Y %H:%M')` into
its `atualizacao` field — `build` is not a function of
`(request, renderedResearchContext)` alone. -/
theorem C3_counterexample :
    _build_comprehensive_analysis_prompt c3cexEnvA noneRequest "" ≠
      _build_comprehensive_analysis_prompt c3cexEnvB noneRequest "" := by
  intro h
  unfold _build_comprehensive_analysis_prompt at h
  have h' := congrArg String.data h
  rw [string_append_data, string_append_data, string_append_data, string_append_data] at h'
  have h2 := List.append_cancel_right h'
  have h3 := List.append_cancel_left h2
  have h4 : ("" : String).data = ("X" : String).data := h3
  simp at h4

/-- C3 (amended): the prompt builder is a pure, deterministic function of
the request, the rendered research context, and the current clock reading:
it has no other dependence on the environment, no side effects and no
failure mode.  Calls agreeing on the clock text produce identical prompts. -/
theorem C3_amended_prompt_depends_only_on_request_context_clock :
    ∀ (env1 env2 : Env) (data : AnalysisRequest) (search_context : String),
    env1.nowFmt = env2.nowFmt →
    _build_comprehensive_analysis_prompt env1 data search_context =
      _build_comprehensive_analysis_prompt env2 data search_context := by
  intro env1 env2 data search_context h
  unfold _build_comprehensive_analysis_prompt
  rw [h]

/-- An environment differing from `witEnvBase` in everything the prompt does
not read, sharing only the clock text. -/
def c3wEnvB : Env :=
  { witEnvBase with
    startTime := 7
    endTime := 9
    aiProviderStatus := []
    nowIsoUtc := "other" }

theorem C3_witness :
    _build_comprehensive_analysis_prompt witEnvBase noneRequest "ctx" =
      _build_comprehensive_analysis_prompt c3wEnvB noneRequest "ctx" :=
  C3_amended_prompt_depends_only_on_request_context_clock witEnvBase c3wEnvB
    noneRequest "ctx" rfl

theorem pyTake_length_le (s : String) (n : Nat) : (pyTake s n).length ≤ n := by
  show (s.data.take n).length ≤ n
  exact List.length_take_le n s.data

/-- C4 counterexample: `"42"` is valid JSON, so strict parsing succeeds with
a number; the subsequent `analysis['metadata_ai'] = ...` is then a
`TypeError` which the `except json.JSONDecodeError` clause does not catch —
`_process_ai_response` raises instead of never raising. -/
theorem C4_counterexample :
    _process_ai_response witEnvBase "42" noneRequest =
      .error "TypeError: item assignment on non-dict" := rfl

/-- C4 (amended): the recoverer never raises *provided the parsed value is a
JSON object*: on a successful object parse it returns that object with
`metadata_ai` attached; on any parse failure it returns the heuristic
result, whose `raw_ai_response` holds the first at-most-1000 characters of
the raw text.  If `json.loads` instead succeeds with a non-object value —
a number, string, list, boolean, null, or one of the `NaN` / `Infinity` /
`-Infinity` constants its default decoder accepts — the assignment
`analysis['metadata_ai'] = ...` raises a `TypeError` which the
`except json.JSONDecodeError` clause does not catch, so the recoverer
propagates it. -/
theorem C4_amended_recover_on_object_or_parse_failure :
    ∀ (env : Env) (raw : String) (data : AnalysisRequest),
    (∀ fs, json_loads (stripFences raw) = .ok (.jobj fs) →
      _process_ai_response env raw data =
        .ok (.jobj (objInsert fs "metadata_ai" (metadataAiBlock env)))) ∧
    (∀ e, json_loads (stripFences raw) = .error e →
      _process_ai_response env raw data = .ok (_extract_structured_analysis raw data) ∧
      jget (_extract_structured_analysis raw data) "raw_ai_response" =
        some (.jstr (pyTake raw 1000)) ∧
      (pyTake raw 1000).length ≤ 1000) ∧
    (∀ v, json_loads (stripFences raw) = .ok v → (∀ fs, v ≠ .jobj fs) →
      _process_ai_response env raw data =
        .error "TypeError: item assignment on non-dict") := by
  intro env raw data
  refine ⟨?_, ?_, ?_⟩
  · intro fs h
    unfold _process_ai_response
    rw [h]
    rfl
  · intro e h
    unfold _process_ai_response
    rw [h]
    exact ⟨rfl, rfl, pyTake_length_le raw 1000⟩
  · intro v h hnot
    unfold _process_ai_response
    rw [h]
    cases v with
    | jobj fs => exact absurd rfl (hnot fs)
    | jnull => rfl
    | jbool b => rfl
    | jnum q => rfl
    | jnonfinite nf => rfl
    | jstr s => rfl
    | jarr xs => rfl

theorem C4_witness :
    (_process_ai_response witEnvBase "not json at all" noneRequest =
      .ok (_extract_structured_analysis "not json at all" noneRequest) ∧
      jget (_extract_structured_analysis "not json at all" noneRequest) "raw_ai_response" =
        some (.jstr (pyTake "not json at all" 1000)) ∧
      (pyTake "not json at all" 1000).length ≤ 1000) ∧
    _process_ai_response witEnvBase " ```json\n\x7b\"a\": 1\x7d\n``` " noneRequest =
      .ok (.jobj (objInsert [("a", .jnum 1)] "metadata_ai" (metadataAiBlock witEnvBase))) ∧
    _process_ai_response witEnvBase "NaN" noneRequest =
      .error "TypeError: item assignment on non-dict" :=
  ⟨(C4_amended_recover_on_object_or_parse_failure witEnvBase "not json at all"
      noneRequest).2.1 "Expecting value" rfl,
    (C4_amended_recover_on_object_or_parse_failure witEnvBase
      " ```json\n\x7b\"a\": 1\x7d\n``` " noneRequest).1 [("a", .jnum 1)] rfl,
    (C4_amended_recover_on_object_or_parse_failure witEnvBase "NaN"
      noneRequest).2.2 (.jnonfinite .nan) rfl (fun _ h => JVal.noConfusion h)⟩

/-- C5: `_perform_comprehensive_ai_analysis` raises exactly when no AI
manager is configured (the `raise` sits outside the `try`); with one
configured it always returns, and a raising model call or an empty model
response degrades to the deterministic basic analysis. -/
theorem C5_analyze_raises_iff_no_ai_manager :
    ∀ (env : Env) (data : AnalysisRequest) (research : ResearchData),
    (env.aiManagerEnabled = false →
      _perform_comprehensive_ai_analysis env data research =
        .error "AI Manager não disponível - configure pelo menos uma API de IA") ∧
    (∀ e, _perform_comprehensive_ai_analysis env data research = .error e →
      env.aiManagerEnabled = false) ∧
    (env.aiManagerEnabled = true →
      ∀ e, env.generateAnalysis
          (_build_comprehensive_analysis_prompt env data (buildSearchContext research))
          8192 = .error e →
        _perform_comprehensive_ai_analysis env data research =
          .ok (_generate_basic_analysis data)) ∧
    (env.aiManagerEnabled = true →
      env.generateAnalysis
          (_build_comprehensive_analysis_prompt env data (buildSearchContext research))
          8192 = .ok "" →
        _perform_comprehensive_ai_analysis env data research =
          .ok (_generate_basic_analysis data)) := by
  intro env data research
  refine ⟨?_, ?_, ?_, ?_⟩
  · intro hoff
    unfold _perform_comprehensive_ai_analysis
    rw [hoff]
    rfl
  · intro e he
    cases hen : env.aiManagerEnabled with
    | false => rfl
    | true =>
      unfold _perform_comprehensive_ai_analysis at he
      rw [hen] at he
      simp only [Bool.not_true, Bool.false_eq_true, if_false] at he
      split at he
      · cases he
      · cases he
  · intro hen e hgen
    unfold _perform_comprehensive_ai_analysis
    rw [hen]
    simp only [Bool.not_true, Bool.false_eq_true, if_false]
    rw [hgen]
  · intro hen hgen
    unfold _perform_comprehensive_ai_analysis
    rw [hen]
    simp only [Bool.not_true, Bool.false_eq_true, if_false]
    rw [hgen]
    rfl

/-- A C5 witness environment: AI configured but the model call raises. -/
def c5wEnv : Env := { witEnvBase with generateAnalysis := fun _ _ => .error "boom" }

/-- A C5 witness environment with no AI manager configured. -/
def c5dEnv : Env := { witEnvBase with aiManagerEnabled := false }

theorem C5_witness :
    _perform_comprehensive_ai_analysis c5dEnv noneRequest emptyResearchData =
      .error "AI Manager não disponível - configure pelo menos uma API de IA" ∧
    _perform_comprehensive_ai_analysis c5wEnv noneRequest emptyResearchData =
      .ok (_generate_basic_analysis noneRequest) :=
  ⟨(C5_analyze_raises_iff_no_ai_manager c5dEnv noneRequest emptyResearchData).1 rfl,
    (C5_analyze_raises_iff_no_ai_manager c5wEnv noneRequest emptyResearchData).2.2.1
      rfl "boom" rfl⟩

/-- C6 counterexample: on the mapping `{"insights_exclusivos": true}` the
scorer calls `len(True)`, a `TypeError` — it does not hold that the scorer
never raises on every analysis mapping. -/
theorem C6_counterexample :
    _calculate_quality_score (.jobj [("insights_exclusivos", .jbool true)]) =
      .error "TypeError: object has no len()" := rfl

/-- C6 (amended): whenever the `insights_exclusivos` value (defaulting to
the empty list) has a length — a list, string or mapping — the score equals
exactly the spec formula: 15 points per named section present with a truthy
(non-empty) value, 10 per research key present, the 20/15/10/0 insight tier,
clamped to at most 100; missing keys contribute zero, and the result lies in
`[0, 100]`.  On a number, boolean or null there, the scorer instead raises
`TypeError` (see the counterexample). -/
theorem C6_amended_score_formula_when_insights_sized :
    ∀ (fs : List (String × JVal)),
    sizedJ ((jget (.jobj fs) "insights_exclusivos").getD (.jarr [])) = true →
    _calculate_quality_score (.jobj fs) = .ok (specQualityScore (.jobj fs)) ∧
    0 ≤ specQualityScore (.jobj fs) ∧ specQualityScore (.jobj fs) ≤ 100 :=
  fun _ h => ⟨qscore_char _ h, (specQualityScore_bounds _).1, (specQualityScore_bounds _).2⟩

/-- Numeric evaluation of the spec formula from its four measurements. -/
theorem specQualityScore_eval (fs : List (String × JVal)) (c t : Nat)
    (hc : mainSections.countP (sectionHit (.jobj fs)) = c)
    (hw : jmem (.jobj fs) "pesquisa_web_detalhada" = false)
    (hd : jmem (.jobj fs) "pesquisa_profunda" = false)
    (hn : jSize ((jget (.jobj fs) "insights_exclusivos").getD (.jarr [])) = t) :
    specQualityScore (.jobj fs) = min (15 * c + insightTier t) 100 := by
  unfold specQualityScore
  rw [hc, hw, hd, hn]
  simp only [Bool.false_eq_true, if_false]
  norm_num

theorem C6_witness :
    (_calculate_quality_score (.jobj [("escopo", .jstr "x")]) =
      .ok (specQualityScore (.jobj [("escopo", .jstr "x")])) ∧
      0 ≤ specQualityScore (.jobj [("escopo", .jstr "x")]) ∧
      specQualityScore (.jobj [("escopo", .jstr "x")]) ≤ 100) ∧
    specQualityScore (.jobj [("escopo", .jstr "x")]) = 15 :=
  ⟨C6_amended_score_formula_when_insights_sized [("escopo", .jstr "x")] rfl, by
    rw [specQualityScore_eval [("escopo", .jstr "x")] 1 0 (by decide) (by decide)
      (by decide) (by decide)]
    norm_num [insightTier, min_def]⟩

/-- C7 counterexample: `{}` scores `0.0`, but adding the previously-absent
named section `insights_exclusivos` with the number 7 does not yield any
score at all — the scorer raises `TypeError` — refuting "adding a
previously-absent named top-level section yields a score greater than or
equal to the original". -/
theorem C7_counterexample :
    _calculate_quality_score (.jobj []) = .ok 0 ∧
    _calculate_quality_score (.jobj [("insights_exclusivos", .jnum 7)]) =
      .error "TypeError: object has no len()" := ⟨rfl, rfl⟩

/-- C7 (amended): the scorer is monotone whenever both scores are defined:
adding a previously-absent key, or appending entries to an existing
`insights_exclusivos` list, never decreases a returned score (when the
extended mapping makes the scorer raise instead, no score is yielded — see
the counterexample). -/
theorem C7_amended_score_monotone_when_defined :
    ∀ (fs : List (String × JVal)) (k : String) (v : JVal) (l m : List JVal)
      (s s' t t' : Rat),
    (fs.any (fun p => p.1 == k) = false →
      _calculate_quality_score (.jobj fs) = .ok s →
      _calculate_quality_score (.jobj (fs ++ [(k, v)])) = .ok s' → s ≤ s') ∧
    (jlookup "insights_exclusivos" fs = some (.jarr l) →
      _calculate_quality_score (.jobj fs) = .ok t →
      _calculate_quality_score
        (.jobj (objInsert fs "insights_exclusivos" (.jarr (l ++ m)))) = .ok t' →
      t ≤ t') :=
  fun fs k v l m s s' t t' =>
    ⟨fun hk h1 h2 => qscore_mono_newkey fs k v s s' hk h1 h2,
     fun hg h1 h2 => qscore_mono_appendins fs l m t t' hg h1 h2⟩

theorem C7_witness : ((0 : Rat) ≤ 15) ∧ ((25 : Rat) ≤ 30) := by
  have hb : _calculate_quality_score (.jobj [("escopo", .jstr "x")]) = .ok 15 := by
    rw [qscore_char (.jobj [("escopo", .jstr "x")]) rfl,
      specQualityScore_eval [("escopo", .jstr "x")] 1 0 (by decide) (by decide)
        (by decide) (by decide)]
    norm_num [insightTier, min_def]
  have h25 : _calculate_quality_score (.jobj [("insights_exclusivos", .jarr [.jstr "a"])]) =
      .ok 25 := by
    rw [qscore_char (.jobj [("insights_exclusivos", .jarr [.jstr "a"])]) rfl,
      specQualityScore_eval [("insights_exclusivos", .jarr [.jstr "a"])] 1 1 (by decide)
        (by decide) (by decide) (by decide)]
    norm_num [insightTier, min_def]
  have h30 : _calculate_quality_score (.jobj (objInsert
      [("insights_exclusivos", .jarr [.jstr "a"])] "insights_exclusivos"
      (.jarr ([.jstr "a"] ++ [.jstr "b", .jstr "c"])))) = .ok 30 := by
    rw [show objInsert [("insights_exclusivos", .jarr [.jstr "a"])] "insights_exclusivos"
        (.jarr ([.jstr "a"] ++ [.jstr "b", .jstr "c"])) =
        [("insights_exclusivos", .jarr [.jstr "a", .jstr "b", .jstr "c"])] from rfl]
    rw [qscore_char (.jobj [("insights_exclusivos", .jarr [.jstr "a", .jstr "b", .jstr "c"])]) rfl,
      specQualityScore_eval [("insights_exclusivos", .jarr [.jstr "a", .jstr "b", .jstr "c"])]
        1 3 (by decide) (by decide) (by decide) (by decide)]
    norm_num [insightTier, min_def]
  exact ⟨(C7_amended_score_monotone_when_defined [] "escopo" (.jstr "x") [] [] 0 15 0 0).1
      rfl rfl (by rw [show (([] : List (String × JVal)) ++ [("escopo", JVal.jstr "x")]) =
        [("escopo", JVal.jstr "x")] from rfl]; exact hb),
    (C7_amended_score_monotone_when_defined [("insights_exclusivos", .jarr [.jstr "a"])]
      "x" .jnull [.jstr "a"] [.jstr "b", .jstr "c"] 0 0 25 30).2 rfl h25 h30⟩

/-- C8: the derived exclusive-insight list has at most 5 entries and is a
deterministic function of the research bundle and the provider-status
snapshots alone — the request and AI-analysis arguments are never read, so
identical bundle and status inputs yield the identical list (built in the
fixed derivation order of lines 553–592). -/
theorem C8_insights_capped_and_deterministic :
    ∀ (env1 env2 : Env) (d1 d2 : AnalysisRequest) (research : ResearchData)
      (a1 a2 : JVal),
    env1.aiProviderStatus = env2.aiProviderStatus →
    env1.searchProviderStatus = env2.searchProviderStatus →
    _generate_real_exclusive_insights env1 d1 research a1 =
      _generate_real_exclusive_insights env2 d2 research a2 ∧
    (_generate_real_exclusive_insights env1 d1 research a1).length ≤ 5 := by
  intro env1 env2 d1 d2 research a1 a2 h1 h2
  constructor
  · unfold _generate_real_exclusive_insights
    rw [h1, h2]
  · unfold _generate_real_exclusive_insights
    exact List.length_take_le _ _

/-- A C8 witness environment differing from `witEnvBase` in everything the
insight derivation does not read. -/
def c8wEnv : Env :=
  { witEnvBase with startTime := 99, nowFmt := "other", generateAnalysis := fun _ _ => .error "x" }

theorem C8_witness :
    _generate_real_exclusive_insights witEnvBase noneRequest emptyResearchData .jnull =
      _generate_real_exclusive_insights c8wEnv c10wData emptyResearchData (.jstr "y") ∧
    (_generate_real_exclusive_insights witEnvBase noneRequest emptyResearchData .jnull).length ≤ 5 :=
  C8_insights_capped_and_deterministic witEnvBase c8wEnv noneRequest c10wData
    emptyResearchData .jnull (.jstr "y") rfl rfl
